import Mathlib

/- Verification of the jigsaw-puzzle generator and vector exporter of this
repository (a browser application; the algorithmic core lives in
`src/puzzle-generator.js`, `src/export-utils.js` and the unnamed source files
`src/unnamed/part_000..part_002`, which hold near-duplicate variants of the
same two classes).

Embedding conventions:
  * Path data is modelled at the PathIR level (spec section 3): the generators
    build path strings and the exporter re-parses them with a regex, but the
    string layer is a transparent serialisation of the typed command sequence,
    so paths are embedded as `List (PathCmd α)`.
  * Coordinates are elements of an arbitrary `LinearOrderedField α`
    (instantiated at `ℚ` for executable witnesses and at `ℝ` for the
    trigonometric facts).  The transcendental functions of the JavaScript
    `Math` object are abstracted as an `ArcKernel α` parameter; at `ℝ` the
    kernel is the genuine `Real.cos`/`Real.sin`/`Real.sqrt`/`Real.arccos`.
  * JavaScript integer arithmetic is modelled on `Nat`/`Int` with explicit
    masking; the seed update `(seed * 1103515245 + 12345) & 0x7fffffff` keeps
    the source's bitwise-and form.  (For seeds at least 8162278 the JavaScript
    double multiplication rounds, so the integer model is exact only below
    that bound; every concrete seed evaluated in this file has been checked to
    agree with the IEEE-double computation.)
  * `Math.random()` (used only by `src/puzzle-generator.js`) is modelled as an
    ambient tape `Nat → ℚ` of draws together with a cursor.
-/

/-- A 2-D point, as pushed by the flattener (`{x, y}` objects in the source). -/
structure Point (α : Type) where
  x : α
  y : α
deriving DecidableEq

/-- An axis-aligned bounding box (the `bounds` field of a piece). -/
structure Bounds (α : Type) where
  x : α
  y : α
  width : α
  height : α
deriving DecidableEq

/-- One command of the path mini-language of spec section 6:
`M`, `L`, `H`, `V`, `C`, `Q`, `A`, `Z` with absolute coordinates.  The two
0/1 arc flags are carried as `Bool` (`true` prints as `1`). -/
inductive PathCmd (α : Type) where
  | moveTo (x y : α)
  | lineTo (x y : α)
  | hTo (x : α)
  | vTo (y : α)
  | cubicTo (c1x c1y c2x c2y x y : α)
  | quadTo (cx cy x y : α)
  | arcTo (rx ry rot : α) (largeArc sweep : Bool) (x y : α)
  | closePath
deriving DecidableEq

/-- A rectangular-layout piece: its closed path, grid position and bounds. -/
structure Piece (α : Type) where
  path : List (PathCmd α)
  row : Nat
  col : Nat
  bounds : Bounds α
deriving DecidableEq

/-- A circular-layout piece (`{path, ring, segment, bounds}` in the source). -/
structure CircPiece (α : Type) where
  path : List (PathCmd α)
  ring : Nat
  segment : Nat
  bounds : Bounds α
deriving DecidableEq

/-- The transcendental operations the geometry uses (`Math.cos`, `Math.sin`,
`Math.sqrt`, `Math.acos`, `Math.PI`), abstracted so the embedding stays
polymorphic in the coordinate field. -/
structure ArcKernel (α : Type) where
  cos : α → α
  sin : α → α
  sqrt : α → α
  acos : α → α
  pi : α

/-- The zero kernel: every transcendental returns 0.  Used to instantiate the
polymorphic definitions at `ℚ` in executable witnesses (no statement proved
below depends on the kernel's values unless it is the real kernel). -/
def zeroKernel : ArcKernel ℚ :=
  ⟨fun _ => 0, fun _ => 0, fun _ => 0, fun _ => 0, 0⟩

/-- The mathematical kernel on the reals. -/
noncomputable def realKernel : ArcKernel ℝ :=
  ⟨Real.cos, Real.sin, Real.sqrt, Real.arccos, Real.pi⟩

/-- 2-D matrix lookup `m[row][col]`, totalised with default 0.  Used only
for the rectangular generators, whose every access stays within the
generated matrix; the circular classic generator's accesses can leave the
matrix and use the throwing variant `mgetE` below instead. -/
def mget (m : List (List Int)) (row col : Nat) : Int :=
  (m.getD row []).getD col 0

/-- Indexed matrix read exactly as the source performs `m[row][col]`: a
missing row is the JavaScript `TypeError` of reading a property of
`undefined`; a missing column inside an existing row is the value
`undefined`, which only ever flows into tab fields the circular classic
piece ignores (C9) and is carried as 0. -/
def mgetE (m : List (List Int)) (row col : Nat) : Except String Int :=
  match m[row]? with
  | some r => Except.ok (r.getD col 0)
  | none => Except.error ("TypeError: Cannot read properties of undefined")

/-- The `topTab` argument of the classic-piece call, identical in every
generator variant
(part_001 line 96, puzzle-generator.js line 50): `row > 0 ? verticalTabs[row - 1][col] : 0`. -/
def topTabArg (verticalTabs : List (List Int)) (row col : Nat) : Int :=
  if row > 0 then mget verticalTabs (row - 1) col else 0

/-- The `rightTab` argument (part_001 line 97, puzzle-generator.js line 51):
`col < cols - 1 ? horizontalTabs[row][col] : 0`. -/
def rightTabArg (horizontalTabs : List (List Int)) (cols row col : Nat) : Int :=
  if col < cols - 1 then mget horizontalTabs row col else 0

/-- The `bottomTab` argument (part_001 line 98, puzzle-generator.js line 52):
`row < rows - 1 ? -verticalTabs[row][col] : 0`. -/
def bottomTabArg (verticalTabs : List (List Int)) (rows row col : Nat) : Int :=
  if row < rows - 1 then -(mget verticalTabs row col) else 0

/-- The `leftTab` argument (part_001 line 99, puzzle-generator.js line 53):
`col > 0 ? -horizontalTabs[row][col - 1] : 0`. -/
def leftTabArg (horizontalTabs : List (List Int)) (row col : Nat) : Int :=
  if col > 0 then -(mget horizontalTabs row (col - 1)) else 0

/-- The accumulation loop `for (i = 0; i < n; i++) out.push(step(state))`
over an arbitrary stateful step: returns the pushed values in order and the
final state.  Both generator variants' matrix loops are instances of it. -/
def loopN {σ β : Type} (f : σ → β × σ) : Nat → σ → List β × σ
  | 0, st => ([], st)
  | n + 1, st =>
      let e := f st
      let rest := loopN f n e.2
      (e.1 :: rest.1, rest.2)

/-- Collect a row-major list of possibly-throwing piece computations into
the full piece list or the first thrown error, matching the abortive
behaviour of a `for` loop whose body may throw. -/
def collectE {β : Type} : List (Except String β) → Except String (List β)
  | [] => Except.ok []
  | Except.error e :: _ => Except.error e
  | Except.ok b :: rest => (collectE rest).map fun l => b :: l

namespace Part1

/- The `PuzzleGenerator` class of `src/unnamed/part_001` (the variant with the
seeded generator, grid/classic piece styles and the border path). -/

/-- The generator's mutable state: its `seed` field. -/
structure GenState where
  seed : Nat
deriving DecidableEq

/-- `random()` (part_001 lines 15-18): advances the seed by
`(seed * 1103515245 + 12345) & 0x7fffffff` and returns `seed / 0x7fffffff`. -/
def random (st : GenState) : ℚ × GenState :=
  let s := (st.seed * 1103515245 + 12345) &&& 0x7fffffff
  ((s : ℚ) / 0x7fffffff, ⟨s⟩)

/-- `resetSeed(seed)` (part_001 lines 23-25); the caller supplies the default
argument `Date.now()` explicitly where it applies. -/
def resetSeed (seed : Nat) (_st : GenState) : GenState :=
  ⟨seed⟩

/-- One matrix entry: `this.random() > 0.5 ? 1 : -1` (the double literal
`0.5` is exactly the rational `1/2`). -/
def tabEntry (st : GenState) : Int × GenState :=
  let r := random st
  ((if r.1 > 1/2 then 1 else -1), r.2)

/-- The inner column loop of `generateTabMatrix`. -/
def tabRow (cols : Nat) (st : GenState) : List Int × GenState :=
  loopN tabEntry cols st

/-- The outer row loop of `generateTabMatrix`. -/
def tabRows (cols rows : Nat) (st : GenState) : List (List Int) × GenState :=
  loopN (tabRow cols) rows st

/-- `generateTabMatrix(cols, rows)` (part_001 lines 409-418): a `rows × cols`
matrix of polarities in `{-1, +1}`, drawn row-major from `random()`. -/
def generateTabMatrix (cols rows : Nat) (st : GenState) :
    List (List Int) × GenState :=
  tabRows cols rows st

end Part1

namespace Part1

section Geometry

variable {α : Type} [LinearOrderedField α]

/-- `createGridPiece` (part_001 lines 198-209): a plain closed rectangle. -/
def createGridPiece (x y width height : α) (row col : Nat) : Piece α :=
  { path := [.moveTo x y, .lineTo (x + width) y, .lineTo (x + width) (y + height),
      .lineTo x (y + height), .closePath]
    row := row
    col := col
    bounds := ⟨x, y, width, height⟩ }

/-- `createEdgePath` (part_001 lines 244-300): a straight edge when the
polarity is 0, otherwise a tab/blank built from a lead-in line, four cubic
segments (neck in, two head lobes, neck out) and a lead-out line, displaced
perpendicular to the edge by `tabSize * tabDirection`. -/
def createEdgePath (x1 y1 x2 y2 tabSize : α) (tabDirection : Int) (edge : String) :
    List (PathCmd α) :=
  if tabDirection = 0 then [.lineTo x2 y2]
  else
    let isHorizontal := edge = "top" ∨ edge = "bottom"
    let tabWidth := tabSize * 0.8
    let neckWidth := tabSize * 0.4
    let tabDepth := tabSize * (tabDirection : α)
    if isHorizontal then
      let dir : α := if x2 > x1 then 1 else -1
      let midX := (x1 + x2) / 2
      let y := y1
      [ .lineTo (midX - (tabWidth + neckWidth) / 2 * dir) y,
        .cubicTo (midX - tabWidth / 2 * dir) (y + tabDepth * 0.2)
          (midX - tabWidth / 2 * dir) (y + tabDepth * 0.5)
          (midX - tabWidth / 2 * dir) (y + tabDepth * 0.5),
        .cubicTo (midX - tabWidth * 0.7 * dir) (y + tabDepth * 0.8)
          (midX - tabWidth * 0.5 * dir) (y + tabDepth) midX (y + tabDepth),
        .cubicTo (midX + tabWidth * 0.5 * dir) (y + tabDepth)
          (midX + tabWidth * 0.7 * dir) (y + tabDepth * 0.8)
          (midX + tabWidth / 2 * dir) (y + tabDepth * 0.5),
        .cubicTo (midX + tabWidth / 2 * dir) (y + tabDepth * 0.2)
          (midX + (tabWidth + neckWidth) / 2 * dir) y
          (midX + (tabWidth + neckWidth) / 2 * dir) y,
        .lineTo x2 y2 ]
    else
      let dir : α := if y2 > y1 then 1 else -1
      let midY := (y1 + y2) / 2
      let x := x1
      [ .lineTo x (midY - (tabWidth + neckWidth) / 2 * dir),
        .cubicTo (x + tabDepth * 0.2) (midY - tabWidth / 2 * dir)
          (x + tabDepth * 0.5) (midY - tabWidth / 2 * dir)
          (x + tabDepth * 0.5) (midY - tabWidth / 2 * dir),
        .cubicTo (x + tabDepth * 0.8) (midY - tabWidth * 0.7 * dir)
          (x + tabDepth) (midY - tabWidth * 0.5 * dir) (x + tabDepth) midY,
        .cubicTo (x + tabDepth) (midY + tabWidth * 0.5 * dir)
          (x + tabDepth * 0.8) (midY + tabWidth * 0.7 * dir)
          (x + tabDepth * 0.5) (midY + tabWidth / 2 * dir),
        .cubicTo (x + tabDepth * 0.2) (midY + tabWidth / 2 * dir)
          x (midY + (tabWidth + neckWidth) / 2 * dir)
          x (midY + (tabWidth + neckWidth) / 2 * dir),
        .lineTo x2 y2 ]

/-- `createClassicPiece` (part_001 lines 214-239): the four edges in order
top, right, bottom (reversed), left (reversed), closed, with bounds grown by
`tabSize` on every side. -/
def createClassicPiece (x y width height tabSize : α)
    (topTab rightTab bottomTab leftTab : Int) (row col : Nat) : Piece α :=
  { path := .moveTo x y ::
      (createEdgePath x y (x + width) y tabSize topTab ("top") ++
       createEdgePath (x + width) y (x + width) (y + height) tabSize rightTab ("right") ++
       createEdgePath (x + width) (y + height) x (y + height) tabSize bottomTab ("bottom") ++
       createEdgePath x (y + height) x y tabSize leftTab ("left") ++
       [.closePath])
    row := row
    col := col
    bounds := ⟨x - tabSize, y - tabSize, width + 2 * tabSize, height + 2 * tabSize⟩ }

/-- The body of the nested row/column loop of `generateRectangularPuzzle`
(part_001 lines 77-105): one grid or classic piece at `(row, col)`. -/
def rectPieceAt (pieceType : String) (margin pieceWidth pieceHeight tabSize : α)
    (horizontalTabs verticalTabs : List (List Int)) (cols rows row col : Nat) : Piece α :=
  let x := margin + (col : α) * pieceWidth
  let y := margin + (row : α) * pieceHeight
  if pieceType = "grid" then
    createGridPiece x y pieceWidth pieceHeight row col
  else
    createClassicPiece x y pieceWidth pieceHeight tabSize
      (topTabArg verticalTabs row col)
      (rightTabArg horizontalTabs cols row col)
      (bottomTabArg verticalTabs rows row col)
      (leftTabArg horizontalTabs row col)
      row col

/-- The result object of the part_001 rectangular generator. -/
structure RectPuzzle (α : Type) where
  pieces : List (Piece α)
  borderPath : List (PathCmd α)
  width : α
  height : α
  cols : Nat
  rows : Nat
  form : String
  pieceType : String
  lineWidth : α
  margin : α
deriving DecidableEq

/-- `generateRectangularPuzzle` (part_001 lines 65-123).  The two tab
matrices are drawn first (horizontal `(cols-1) × rows`, then vertical
`cols × (rows-1)`), and the pieces are laid out row-major.  (With `cols` or
`rows` zero the JavaScript piece size is `Infinity`; the Lean division
returns 0 — the value is never visible in the output because the loops then
produce no pieces.) -/
def generateRectangularPuzzle (cols rows : Nat) (width height margin : α)
    (pieceType : String) (lineWidth : α) (form : String) (st : GenState) :
    RectPuzzle α :=
  let innerWidth := width - 2 * margin
  let innerHeight := height - 2 * margin
  let pieceWidth := innerWidth / (cols : α)
  let pieceHeight := innerHeight / (rows : α)
  let tabSize := min pieceWidth pieceHeight * 0.22
  let h := generateTabMatrix (cols - 1) rows st
  let v := generateTabMatrix cols (rows - 1) h.2
  { pieces := (List.range rows).flatMap fun (row : Nat) =>
      (List.range cols).map fun (col : Nat) =>
        rectPieceAt pieceType margin pieceWidth pieceHeight tabSize h.1 v.1 cols rows row col
    borderPath := [.moveTo margin margin, .lineTo (width - margin) margin,
      .lineTo (width - margin) (height - margin), .lineTo margin (height - margin),
      .closePath]
    width := width
    height := height
    cols := cols
    rows := rows
    form := form
    pieceType := pieceType
    lineWidth := lineWidth
    margin := margin }

/-- `createCircularGridPiece` (part_001 lines 305-339): an annular sector
(inner arc sweep 1, outer arc sweep 0) that degenerates to a pie wedge when
`innerRadius === 0`. -/
def createCircularGridPiece (K : ArcKernel α)
    (centerX centerY innerRadius outerRadius startAngle endAngle : α)
    (ring segment : Nat) : CircPiece α :=
  let x1 := centerX + K.cos startAngle * innerRadius
  let y1 := centerY + K.sin startAngle * innerRadius
  let x2 := centerX + K.cos endAngle * innerRadius
  let y2 := centerY + K.sin endAngle * innerRadius
  let x3 := centerX + K.cos endAngle * outerRadius
  let y3 := centerY + K.sin endAngle * outerRadius
  let x4 := centerX + K.cos startAngle * outerRadius
  let y4 := centerY + K.sin startAngle * outerRadius
  let largeArc : Bool := endAngle - startAngle > K.pi
  { path :=
      if innerRadius = 0 then
        [.moveTo centerX centerY, .lineTo x4 y4,
         .arcTo outerRadius outerRadius 0 largeArc true x3 y3, .closePath]
      else
        [.moveTo x1 y1, .arcTo innerRadius innerRadius 0 largeArc true x2 y2,
         .lineTo x3 y3, .arcTo outerRadius outerRadius 0 largeArc false x4 y4,
         .closePath]
    ring := ring
    segment := segment
    bounds := ⟨centerX - outerRadius, centerY - outerRadius,
      outerRadius * 2, outerRadius * 2⟩ }

/-- The options object passed to `createCircularClassicPiece`
(part_001 lines 159-168). -/
structure CircClassicOpts (α : Type) where
  centerX : α
  centerY : α
  innerRadius : α
  outerRadius : α
  startAngle : α
  endAngle : α
  tabSize : α
  innerTab : Int
  outerTab : Int
  ring : Nat
  segment : Nat
  totalSegments : Nat
deriving DecidableEq

/-- `createCircularClassicPiece` (part_001 lines 344-404).  The body uses
only the centre, radii and angles: `tabSize`, `innerTab`, `outerTab` and
`totalSegments` are destructured but never used, so the "classic" circular
piece is geometrically the grid sector with an extra closing radial line. -/
def createCircularClassicPiece (K : ArcKernel α) (o : CircClassicOpts α) :
    CircPiece α :=
  let x1 := o.centerX + K.cos o.startAngle * o.innerRadius
  let y1 := o.centerY + K.sin o.startAngle * o.innerRadius
  let x2 := o.centerX + K.cos o.endAngle * o.innerRadius
  let y2 := o.centerY + K.sin o.endAngle * o.innerRadius
  let x3 := o.centerX + K.cos o.endAngle * o.outerRadius
  let y3 := o.centerY + K.sin o.endAngle * o.outerRadius
  let x4 := o.centerX + K.cos o.startAngle * o.outerRadius
  let y4 := o.centerY + K.sin o.startAngle * o.outerRadius
  let largeArc : Bool := o.endAngle - o.startAngle > K.pi
  { path :=
      if o.innerRadius = 0 then
        [.moveTo o.centerX o.centerY, .lineTo x4 y4,
         .arcTo o.outerRadius o.outerRadius 0 largeArc true x3 y3,
         .lineTo o.centerX o.centerY, .closePath]
      else
        [.moveTo x1 y1,
         .arcTo o.innerRadius o.innerRadius 0 largeArc true x2 y2,
         .lineTo x3 y3,
         .arcTo o.outerRadius o.outerRadius 0 largeArc false x4 y4,
         .lineTo x1 y1, .closePath]
    ring := o.ring
    segment := o.segment
    bounds := ⟨o.centerX - o.outerRadius, o.centerY - o.outerRadius,
      o.outerRadius * 2, o.outerRadius * 2⟩ }

/-- The result object of the part_001 circular generator. -/
structure CircPuzzle (α : Type) where
  pieces : List (CircPiece α)
  borderPath : List (PathCmd α)
  width : α
  height : α
  cols : Nat
  rows : Nat
  form : String
  pieceType : String
  lineWidth : α
  margin : α
  centerX : α
  centerY : α
  radius : α
deriving DecidableEq

/-- `generateCircularPuzzle` (part_001 lines 128-193).  Both polarity
matrices are drawn (radial, then ring) before the loops; the ring matrix is
never read.  For classic pieces the source indexes
`radialTabs[segment][ring - 1]` (and `[ring]`) although the matrix has only
`rings - 1` rows, so any piece with `segment ≥ rings - 1` that takes either
tab read throws a `TypeError` — modelled by the `Except` result, which
aborts at the first throwing piece exactly as the loop does. -/
def generateCircularPuzzle (K : ArcKernel α) (segments rings : Nat)
    (width height margin : α) (pieceType : String) (lineWidth : α)
    (st : GenState) : Except String (CircPuzzle α) :=
  let centerX := width / 2
  let centerY := height / 2
  let maxRadius := min width height / 2 - margin
  let ringWidth := maxRadius / (rings : α)
  let tabSize := ringWidth * 0.18
  let radial := generateTabMatrix segments (rings - 1) st
  let _ring := generateTabMatrix (segments - 1) rings radial.2
  Except.map
    (fun pieces =>
      { pieces := pieces
        borderPath := [.moveTo (centerX + maxRadius) centerY,
          .arcTo maxRadius maxRadius 0 true true (centerX - maxRadius) centerY,
          .arcTo maxRadius maxRadius 0 true true (centerX + maxRadius) centerY,
          .closePath]
        width := width
        height := height
        cols := segments
        rows := rings
        form := ("circular")
        pieceType := pieceType
        lineWidth := lineWidth
        margin := margin
        centerX := centerX
        centerY := centerY
        radius := maxRadius })
    (collectE ((List.range rings).flatMap fun (ring : Nat) =>
      (List.range segments).map fun (segment : Nat) =>
        let innerRadius := (ring : α) * ringWidth
        let outerRadius := ((ring : α) + 1) * ringWidth
        let startAngle := ((segment : α) / (segments : α)) * K.pi * 2 - K.pi / 2
        let endAngle := (((segment : α) + 1) / (segments : α)) * K.pi * 2 - K.pi / 2
        if pieceType = "grid" then
          Except.ok (createCircularGridPiece K centerX centerY innerRadius
            outerRadius startAngle endAngle ring segment)
        else
          match (if ring > 0 then mgetE radial.1 segment (ring - 1)
              else Except.ok 0) with
          | Except.error e => Except.error e
          | Except.ok innerTab =>
            match (if ring < rings - 1 then mgetE radial.1 segment ring
                else Except.ok 0) with
            | Except.error e => Except.error e
            | Except.ok t =>
              Except.ok (createCircularClassicPiece K
                { centerX := centerX, centerY := centerY,
                  innerRadius := innerRadius, outerRadius := outerRadius,
                  startAngle := startAngle, endAngle := endAngle,
                  tabSize := tabSize,
                  innerTab := innerTab,
                  outerTab := if ring < rings - 1 then -t else 0,
                  ring := ring, segment := segment,
                  totalSegments := segments })))

/-- The options object consumed by `generate` (part_001 lines 31-40); it has
no seed field — the only randomness control the class offers is the
`resetSeed` method, which `generate` itself overrides. -/
structure Options (α : Type) where
  form : String
  pieceType : String
  cols : Nat
  rows : Nat
  width : α
  height : α
  margin : α
  lineWidth : α
deriving DecidableEq

/-- The union of the two result shapes `generate` can return. -/
inductive Puzzle (α : Type) where
  | rect (p : RectPuzzle α)
  | circ (p : CircPuzzle α)
deriving DecidableEq

/-- `generate` (part_001 lines 30-60): unconditionally calls
`this.resetSeed()` — whose default argument is `Date.now()`, modelled by the
explicit `now` parameter — then squares the canvas for the `square` form and
dispatches: `circular` to the circular generator, everything else (including
unrecognised `form` values) to the rectangular one.  No input validation is
performed; a `TypeError` thrown inside the circular classic layout
propagates out of `generate`, every other path succeeds. -/
def generate (K : ArcKernel α) (o : Options α) (now : Nat) (st : GenState) :
    Except String (Puzzle α) :=
  let st1 := resetSeed now st
  let puzzleWidth := if o.form = "square" then min o.width o.height else o.width
  let puzzleHeight := if o.form = "square" then min o.width o.height else o.height
  if o.form = "circular" then
    Except.map Puzzle.circ (generateCircularPuzzle K o.cols o.rows puzzleWidth
      puzzleHeight o.margin o.pieceType o.lineWidth st1)
  else
    Except.ok (.rect (generateRectangularPuzzle o.cols o.rows puzzleWidth
      puzzleHeight o.margin o.pieceType o.lineWidth o.form st1))

end Geometry

end Part1


namespace PJS

/- The `PuzzleGenerator` class of `src/puzzle-generator.js` (the variant with
`Math.random()`, quadratic tab curves and no border path). -/

/-- JavaScript's `String.prototype.includes`: substring containment. -/
def strIncludes (needle hay : String) : Bool :=
  if needle.data <:+: hay.data then true else false

/-- `Math.random()` is modelled as an infinite tape of draws and a cursor. -/
structure Rng where
  tape : Nat → ℚ
  idx : Nat

/-- One `Math.random()` call. -/
def draw (r : Rng) : ℚ × Rng :=
  (r.tape r.idx, ⟨r.tape, r.idx + 1⟩)

/-- The body of the matrix loop (puzzle-generator.js line 247):
`Math.random() > 0.5 ? 1 : -1` (`0.5` is exactly `1/2`). -/
def tabEntry (r : Rng) : Int × Rng :=
  let d := draw r
  ((if d.1 > 1/2 then 1 else -1), d.2)

/-- The inner column loop of `generateTabMatrix` (puzzle-generator.js lines
242-251). -/
def tabRow (cols : Nat) (r : Rng) : List Int × Rng :=
  loopN tabEntry cols r

/-- The outer row loop of `generateTabMatrix`. -/
def tabRows (cols rows : Nat) (r : Rng) : List (List Int) × Rng :=
  loopN (tabRow cols) rows r

/-- `generateTabMatrix(cols, rows)` (puzzle-generator.js lines 242-251); a
zero or negative dimension runs the corresponding loop zero times. -/
def generateTabMatrix (cols rows : Int) (r : Rng) : List (List Int) × Rng :=
  tabRows cols.toNat rows.toNat r

section Geometry

variable {α : Type} [LinearOrderedField α]

/-- `createTabPath` (puzzle-generator.js lines 160-190): a lead-in line, two
quadratic segments and a lead-out line.  (`dir`/`isReverse` are computed by
the source but never used.)  The orientation test is the source's
`orientation.includes('horizontal')`. -/
def createTabPath (x1 y1 x2 y2 tabSize : α) (direction : Int)
    (orientation : String) : List (PathCmd α) :=
  let isHorizontal := strIncludes ("horizontal") orientation
  let tabWidth := tabSize * 1.5
  let tabHeight := tabSize * (direction : α)
  if isHorizontal then
    let midX := (x1 + x2) / 2
    let y := y1
    [ .lineTo (midX - tabWidth / 2) y,
      .quadTo (midX - tabWidth / 2) (y + tabHeight * 0.5) midX (y + tabHeight),
      .quadTo (midX + tabWidth / 2) (y + tabHeight * 0.5) (midX + tabWidth / 2) y,
      .lineTo x2 y2 ]
  else
    let midY := (y1 + y2) / 2
    let x := x1
    [ .lineTo x (midY - tabWidth / 2),
      .quadTo (x + tabHeight * 0.5) (midY - tabWidth / 2) (x + tabHeight) midY,
      .quadTo (x + tabHeight * 0.5) (midY + tabWidth / 2) x (midY + tabWidth / 2),
      .lineTo x2 y2 ]

/-- `createJigsawPiece` (puzzle-generator.js lines 114-155): each edge is a
straight line when its polarity is 0, otherwise a tab curve; bottom and left
edges pass the negated polarity with a `-reverse` orientation. -/
def createJigsawPiece (x y width height tabSize : α)
    (hasTopTab hasRightTab hasBottomTab hasLeftTab : Int) (row col : Nat) :
    Piece α :=
  { path := .moveTo x y ::
      ((if hasTopTab ≠ 0 then
          createTabPath x y (x + width) y tabSize hasTopTab ("horizontal")
        else [.lineTo (x + width) y]) ++
       (if hasRightTab ≠ 0 then
          createTabPath (x + width) y (x + width) (y + height) tabSize hasRightTab ("vertical")
        else [.lineTo (x + width) (y + height)]) ++
       (if hasBottomTab ≠ 0 then
          createTabPath (x + width) (y + height) x (y + height) tabSize (-hasBottomTab)
            ("horizontal-reverse")
        else [.lineTo x (y + height)]) ++
       (if hasLeftTab ≠ 0 then
          createTabPath x (y + height) x y tabSize (-hasLeftTab) ("vertical-reverse")
        else [.lineTo x y]) ++
       [.closePath])
    row := row
    col := col
    bounds := ⟨x, y, width, height⟩ }

/-- `createCircularPiece` (puzzle-generator.js lines 195-237): the inner arc
is emitted only when `innerRadius > 0`; both radial edges are straight lines
and the path closes back through the inner start corner. -/
def createCircularPiece (K : ArcKernel α)
    (centerX centerY innerRadius outerRadius startAngle endAngle : α)
    (ring segment : Nat) : CircPiece α :=
  let x1 := centerX + K.cos startAngle * innerRadius
  let y1 := centerY + K.sin startAngle * innerRadius
  let x2 := centerX + K.cos endAngle * innerRadius
  let y2 := centerY + K.sin endAngle * innerRadius
  let x3 := centerX + K.cos endAngle * outerRadius
  let y3 := centerY + K.sin endAngle * outerRadius
  let x4 := centerX + K.cos startAngle * outerRadius
  let y4 := centerY + K.sin startAngle * outerRadius
  let largeArc : Bool := endAngle - startAngle > K.pi
  { path := .moveTo x1 y1 ::
      ((if innerRadius > 0 then
          [PathCmd.arcTo innerRadius innerRadius 0 largeArc true x2 y2]
        else []) ++
       [.lineTo x3 y3,
        .arcTo outerRadius outerRadius 0 largeArc false x4 y4,
        .lineTo x1 y1, .closePath])
    ring := ring
    segment := segment
    bounds := ⟨centerX - outerRadius, centerY - outerRadius,
      outerRadius * 2, outerRadius * 2⟩ }

/-- The result object of the puzzle-generator.js rectangular generator
(no border path in this variant). -/
structure RectPuzzle (α : Type) where
  pieces : List (Piece α)
  width : α
  height : α
  cols : Int
  rows : Int
  type : String
deriving DecidableEq

/-- The result object of the puzzle-generator.js circular generator. -/
structure CircPuzzle (α : Type) where
  pieces : List (CircPiece α)
  width : α
  height : α
  cols : Int
  rows : Int
  type : String
deriving DecidableEq

/-- `generateRectangularPuzzle` (puzzle-generator.js lines 30-69): classic
jigsaw pieces only, tab polarities drawn from `Math.random()`. -/
def generateRectangularPuzzle (cols rows : Int) (width height margin : α)
    (rng : Rng) : RectPuzzle α :=
  let pieceWidth := (width - 2 * margin) / (cols : α)
  let pieceHeight := (height - 2 * margin) / (rows : α)
  let tabSize := min pieceWidth pieceHeight * 0.2
  let h := generateTabMatrix (cols - 1) rows rng
  let v := generateTabMatrix cols (rows - 1) h.2
  { pieces := (List.range rows.toNat).flatMap fun (row : Nat) =>
      (List.range cols.toNat).map fun (col : Nat) =>
        let x := margin + (col : α) * pieceWidth
        let y := margin + (row : α) * pieceHeight
        createJigsawPiece x y pieceWidth pieceHeight tabSize
          (topTabArg v.1 row col)
          (rightTabArg h.1 cols.toNat row col)
          (bottomTabArg v.1 rows.toNat row col)
          (leftTabArg h.1 row col)
          row col
    width := width
    height := height
    cols := cols
    rows := rows
    type := ("rectangular") }

/-- `generateCircularPuzzle` (puzzle-generator.js lines 74-109): plain
annular sectors, no randomness, angle zero at the positive x axis. -/
def generateCircularPuzzle (K : ArcKernel α) (cols rows : Int)
    (width height margin : α) : CircPuzzle α :=
  let centerX := width / 2
  let centerY := height / 2
  let maxRadius := min width height / 2 - margin
  let radiusStep := maxRadius / (rows : α)
  let angleStep := K.pi * 2 / (cols : α)
  { pieces := (List.range rows.toNat).flatMap fun (ring : Nat) =>
      (List.range cols.toNat).map fun (segment : Nat) =>
        let innerRadius := (ring : α) * radiusStep
        let outerRadius := ((ring : α) + 1) * radiusStep
        let startAngle := (segment : α) * angleStep
        let endAngle := ((segment : α) + 1) * angleStep
        createCircularPiece K centerX centerY innerRadius outerRadius
          startAngle endAngle ring segment
    width := width
    height := height
    cols := cols
    rows := rows
    type := ("circular") }

/-- The two result shapes of the puzzle-generator.js `generate`. -/
inductive Result (α : Type) where
  | rect (p : RectPuzzle α)
  | circ (p : CircPuzzle α)
deriving DecidableEq

/-- `generate` (puzzle-generator.js lines 13-25): a `switch` on `shape` —
`rectangular` and `square` share the rectangular branch, `circular` takes the
circular one, and every other value throws `Error('Unknown puzzle shape')`
(modelled as `Except.error`).  Grid dimensions are never validated. -/
def generate (K : ArcKernel α) (shape : String) (cols rows : Int)
    (width height margin : α) (rng : Rng) : Except String (Result α) :=
  if shape = "rectangular" ∨ shape = "square" then
    .ok (.rect (generateRectangularPuzzle cols rows width height margin rng))
  else if shape = "circular" then
    .ok (.circ (generateCircularPuzzle K cols rows width height margin))
  else
    .error ("Unknown puzzle shape")

end Geometry

end PJS

namespace Part2

/- The second `PuzzleGenerator` class of `src/unnamed/part_002` (the
"JigsawPlanet-style" variant).  Only its `createCircularPiece` differs in a
way any claim depends on: the pie-wedge test is `innerRadius < 1` instead of
part_001's `innerRadius === 0`. -/

section Geometry

variable {α : Type} [LinearOrderedField α]

/-- `createCircularPiece` (part_002 lines 653-687): as part_001's
`createCircularGridPiece`, but every piece with `innerRadius < 1` — not only
the exact centre — collapses to the pie wedge. -/
def createCircularPiece (K : ArcKernel α)
    (centerX centerY innerRadius outerRadius startAngle endAngle : α)
    (ring segment : Nat) : CircPiece α :=
  let x1 := centerX + K.cos startAngle * innerRadius
  let y1 := centerY + K.sin startAngle * innerRadius
  let x2 := centerX + K.cos endAngle * innerRadius
  let y2 := centerY + K.sin endAngle * innerRadius
  let x3 := centerX + K.cos endAngle * outerRadius
  let y3 := centerY + K.sin endAngle * outerRadius
  let x4 := centerX + K.cos startAngle * outerRadius
  let y4 := centerY + K.sin startAngle * outerRadius
  let largeArc : Bool := endAngle - startAngle > K.pi
  { path :=
      if innerRadius < 1 then
        [.moveTo centerX centerY, .lineTo x4 y4,
         .arcTo outerRadius outerRadius 0 largeArc true x3 y3, .closePath]
      else
        [.moveTo x1 y1, .arcTo innerRadius innerRadius 0 largeArc true x2 y2,
         .lineTo x3 y3, .arcTo outerRadius outerRadius 0 largeArc false x4 y4,
         .closePath]
    ring := ring
    segment := segment
    bounds := ⟨centerX - outerRadius, centerY - outerRadius,
      outerRadius * 2, outerRadius * 2⟩ }

end Geometry

end Part2

namespace ExportUtils

/- The first `ExportUtils` class of `src/export-utils.js` (the variant with
CUT/BORDER layers, default flattening resolution 16 and Y-axis flip). -/

section Flatten

variable {α : Type} [LinearOrderedField α]

/-- `approximateArc` (export-utils.js lines 348-429): the SVG
elliptical-arc-to-centre conversion.  Degenerate radii short-circuit to the
single endpoint; a too-small radius pair is scaled by `sqrt(lambda)`; the
centre sign is `(fA !== fS ? 1 : -1)`; the angular delta is wrapped by
`±2π` according to the sweep flag; then `segments` points are sampled. -/
def approximateArc (K : ArcKernel α) (x1 y1 rx ry phi : α) (fA fS : Bool)
    (x2 y2 : α) (segments : Nat) : List (Point α) :=
  if rx = 0 ∨ ry = 0 then [⟨x2, y2⟩]
  else
    let phiRad := phi * K.pi / 180
    let cosPhi := K.cos phiRad
    let sinPhi := K.sin phiRad
    let dx := (x1 - x2) / 2
    let dy := (y1 - y2) / 2
    let x1p := cosPhi * dx + sinPhi * dy
    let y1p := -sinPhi * dx + cosPhi * dy
    let x1pSq := x1p * x1p
    let y1pSq := y1p * y1p
    let lam := x1pSq / (rx * rx) + y1pSq / (ry * ry)
    let rx1 := if lam > 1 then rx * K.sqrt lam else rx
    let ry1 := if lam > 1 then ry * K.sqrt lam else ry
    let rxSq := rx1 * rx1
    let rySq := ry1 * ry1
    let sq0 := (rxSq * rySq - rxSq * y1pSq - rySq * x1pSq) /
      (rxSq * y1pSq + rySq * x1pSq)
    let sq := max 0 sq0
    let coef := (if fA ≠ fS then 1 else -1) * K.sqrt sq
    let cxp := coef * (rx1 * y1p / ry1)
    let cyp := coef * (-(ry1 * x1p) / rx1)
    let cx := cosPhi * cxp - sinPhi * cyp + (x1 + x2) / 2
    let cy := sinPhi * cxp + cosPhi * cyp + (y1 + y2) / 2
    let ux := (x1p - cxp) / rx1
    let uy := (y1p - cyp) / ry1
    let vx := (-x1p - cxp) / rx1
    let vy := (-y1p - cyp) / ry1
    let n := K.sqrt (ux * ux + uy * uy)
    let theta1 := (if uy < 0 then -1 else 1) * K.acos (ux / n)
    let nn := K.sqrt (vx * vx + vy * vy)
    let dT0 := (if ux * vy - uy * vx < 0 then -1 else 1) *
      K.acos ((ux * vx + uy * vy) / (n * nn))
    let dTheta :=
      if fS = false ∧ dT0 > 0 then dT0 - 2 * K.pi
      else if fS = true ∧ dT0 < 0 then dT0 + 2 * K.pi
      else dT0
    (List.range segments).map fun i =>
      let t := ((i + 1 : Nat) : α) / (segments : α)
      let angle := theta1 + dTheta * t
      let xr := rx1 * K.cos angle
      let yr := ry1 * K.sin angle
      ⟨cosPhi * xr - sinPhi * yr + cx, sinPhi * xr + cosPhi * yr + cy⟩

/-- The points one command of the `getPathPoints` switch
(export-utils.js lines 249-339) pushes, given the current point and the
subpath start.  `M`/`L`/`H`/`V` push one point; `C`/`Q` push `res`
Bernstein samples at `t = i/res`, `i = 1..res`; `A` delegates to
`approximateArc`; `Z` pushes the start unless the current point is already
within 0.01 of it in both coordinates. -/
def cmdPoints (K : ArcKernel α) (res : Nat) (curX curY startX startY : α) :
    PathCmd α → List (Point α)
  | .moveTo x y => [⟨x, y⟩]
  | .lineTo x y => [⟨x, y⟩]
  | .hTo x => [⟨x, curY⟩]
  | .vTo y => [⟨curX, y⟩]
  | .cubicTo c1x c1y c2x c2y ex ey =>
      (List.range res).map fun i =>
        let t := ((i + 1 : Nat) : α) / (res : α)
        let t2 := t * t
        let t3 := t2 * t
        let mt := 1 - t
        let mt2 := mt * mt
        let mt3 := mt2 * mt
        ⟨mt3 * curX + 3 * mt2 * t * c1x + 3 * mt * t2 * c2x + t3 * ex,
         mt3 * curY + 3 * mt2 * t * c1y + 3 * mt * t2 * c2y + t3 * ey⟩
  | .quadTo cx cy ex ey =>
      (List.range res).map fun i =>
        let t := ((i + 1 : Nat) : α) / (res : α)
        let t1 := 1 - t
        ⟨t1 * t1 * curX + 2 * t1 * t * cx + t * t * ex,
         t1 * t1 * curY + 2 * t1 * t * cy + t * t * ey⟩
  | .arcTo rx ry rot la sw ex ey =>
      approximateArc K curX curY rx ry rot la sw ex ey res
  | .closePath =>
      if |curX - startX| > 0.01 ∨ |curY - startY| > 0.01 then [⟨startX, startY⟩]
      else []

/-- The recursion over the command list, threading
`currentX/currentY/startX/startY` exactly as the switch updates them. -/
def flattenAux (K : ArcKernel α) (res : Nat) :
    List (PathCmd α) → α → α → α → α → List (Point α)
  | [], _, _, _, _ => []
  | c :: rest, curX, curY, startX, startY =>
      cmdPoints K res curX curY startX startY c ++
      (match c with
       | .moveTo x y => flattenAux K res rest x y x y
       | .lineTo x y => flattenAux K res rest x y startX startY
       | .hTo x => flattenAux K res rest x curY startX startY
       | .vTo y => flattenAux K res rest curX y startX startY
       | .cubicTo _ _ _ _ x y => flattenAux K res rest x y startX startY
       | .quadTo _ _ x y => flattenAux K res rest x y startX startY
       | .arcTo _ _ _ _ _ x y => flattenAux K res rest x y startX startY
       | .closePath => flattenAux K res rest startX startY startX startY)

/-- `getPathPoints` (export-utils.js lines 236-343); the source's default
`resolution = 16` is passed explicitly by the callers below.  All four
position registers start at 0. -/
def getPathPoints (K : ArcKernel α) (path : List (PathCmd α)) (res : Nat) :
    List (Point α) :=
  flattenAux K res path 0 0 0 0

end Flatten

/-- A decimal digit character. -/
def digitChar (n : Nat) : Char := Char.ofNat (48 + n)

/-- The decimal rendering of a natural number (JavaScript's integer-valued
number-to-string conversion, as used by `${points.length}`). -/
def natToChars (n : Nat) : List Char :=
  if _h : n < 10 then [digitChar n]
  else natToChars (n / 10) ++ [digitChar (n % 10)]
decreasing_by exact Nat.div_lt_self (by omega) (by omega)

/-- Left-pad a digit string to 4 places. -/
def pad4 (ds : List Char) : List Char :=
  List.replicate (4 - ds.length) ('0') ++ ds

/-- `Number.prototype.toFixed(4)`: the magnitude rounded to the nearest
ten-thousandth (ties up), rendered with exactly four decimals, the sign
prefixed. -/
def toFixed4 (q : ℚ) : List Char :=
  let scaled := (⌊|q| * 10000 + 1 / 2⌋).toNat
  let ip := scaled / 10000
  let fp := scaled % 10000
  (if q < 0 then [('-')] else []) ++
    natToChars ip ++ [('.')] ++ pad4 (natToChars fp)

/-- `MM_TO_PIXELS` (export-utils.js line 7): 96 DPI, one millimetre is
3.7795275591 pixels. -/
def MM_TO_PIXELS : ℚ := 3.7795275591

/-- The two vertex group lines of one polyline point
(export-utils.js lines 222-228): `10\n<xMM>\n20\n<yMM>\n` with
`xMM = x / MM_TO_PIXELS` and `yMM = heightMM - y / MM_TO_PIXELS` (the Y axis
is flipped because DXF uses a bottom-left origin). -/
def vertexChars (heightMM : ℚ) (p : Point ℚ) : List Char :=
  ("10\n").data ++ toFixed4 (p.x / MM_TO_PIXELS) ++ ("\n").data ++
  ("20\n").data ++ toFixed4 (heightMM - p.y / MM_TO_PIXELS) ++ ("\n").data

/-- `pathToPolyline` (export-utils.js lines 210-231): one closed
`LWPOLYLINE` entity on the given layer, or nothing when the flattened path
has fewer than two points.  Flattening resolution is the source default 16. -/
def pathToPolyline (K : ArcKernel ℚ) (path : List (PathCmd ℚ)) (layer : String)
    (heightMM : ℚ) : List Char :=
  let points := getPathPoints K path 16
  if points.length < 2 then []
  else
    ("0\nLWPOLYLINE\n").data ++
    ("100\nAcDbEntity\n").data ++
    ("8\n").data ++ layer.data ++ ("\n").data ++
    ("100\nAcDbPolyline\n").data ++
    ("90\n").data ++ natToChars points.length ++ ("\n").data ++
    ("70\n1\n").data ++
    (points.map (vertexChars heightMM)).flatten

/-- The fields of the puzzle object `exportDXF` reads (`width`, `height`,
`pieces` — of which only each piece's `path` is used — and the optional
`borderPath`; the destructured `form` is never read). -/
structure PuzzleData where
  width : ℚ
  height : ℚ
  pieces : List (List (PathCmd ℚ))
  borderPath : Option (List (PathCmd ℚ))

/-- `exportDXF` (export-utils.js lines 157-205): millimetre-unit header
(`$INSUNITS = 4`), a line-type table and a layer table declaring `CUT` (red)
and `BORDER` (blue), then one polyline per piece on `CUT` and one for the
border on `BORDER`. -/
def exportDXF (K : ArcKernel ℚ) (p : PuzzleData) : List Char :=
  let widthMM := p.width / MM_TO_PIXELS
  let heightMM := p.height / MM_TO_PIXELS
  ("0\nSECTION\n2\nHEADER\n").data ++
  ("9\n$ACADVER\n1\nAC1015\n").data ++
  ("9\n$INSUNITS\n70\n4\n").data ++
  ("9\n$EXTMIN\n10\n0.0\n20\n0.0\n30\n0.0\n").data ++
  ("9\n$EXTMAX\n10\n").data ++ toFixed4 widthMM ++ ("\n20\n").data ++
    toFixed4 heightMM ++ ("\n30\n0.0\n").data ++
  ("0\nENDSEC\n").data ++
  ("0\nSECTION\n2\nTABLES\n").data ++
  ("0\nTABLE\n2\nLTYPE\n70\n1\n").data ++
  ("0\nLTYPE\n2\nCONTINUOUS\n70\n0\n3\nSolid line\n72\n65\n73\n0\n40\n0.0\n").data ++
  ("0\nENDTAB\n").data ++
  ("0\nTABLE\n2\nLAYER\n70\n2\n").data ++
  ("0\nLAYER\n2\nCUT\n70\n0\n62\n1\n6\nCONTINUOUS\n").data ++
  ("0\nLAYER\n2\nBORDER\n70\n0\n62\n5\n6\nCONTINUOUS\n").data ++
  ("0\nENDTAB\n").data ++
  ("0\nENDSEC\n").data ++
  ("0\nSECTION\n2\nENTITIES\n").data ++
  (p.pieces.map fun path => pathToPolyline K path ("CUT") heightMM).flatten ++
  (match p.borderPath with
   | some b => pathToPolyline K b ("BORDER") heightMM
   | none => []) ++
  ("0\nENDSEC\n").data ++
  ("0\nEOF\n").data

end ExportUtils

/-- The spec side of claim C3's emitted-entry rule, as the spec words it
("emitted value = (seed'/2^31 > 0.5) ? +1 : -1", divisor `2^31`); compared
below against the source's rule, whose divisor is `0x7fffffff = 2^31 - 1`. -/
def specEmitRule (s : Nat) : Int :=
  if (s : ℚ) / 2147483648 > 1/2 then 1 else -1

/-- The spec side of claim C7's vertex conversion, as the spec words it:
`xMM = xPx / 3.7795275591`, `yMM = heightMM - yPx / 3.7795275591`, fixed
4-decimal precision; compared below against `ExportUtils.vertexChars`. -/
def specVertexChars (heightMM : ℚ) (pt : Point ℚ) : List Char :=
  ("10\n").data ++ ExportUtils.toFixed4 (pt.x / 3.7795275591) ++ ("\n").data ++
  ("20\n").data ++ ExportUtils.toFixed4 (heightMM - pt.y / 3.7795275591) ++
  ("\n").data

/-- The part_001 generator state after `n` calls of `random` (used to name
which draw produced which tab-matrix entry). -/
def stepN (n : Nat) (st : Part1.GenState) : Part1.GenState :=
  (fun s => (Part1.random s).2)^[n] st
/-- The bitwise-and of the source's seed update is reduction modulo `2^31`. -/
theorem land_mask31_eq_mod (n : Nat) : n &&& 0x7fffffff = n % 0x80000000 := by
  apply Nat.eq_of_testBit_eq
  intro k
  have h2 : (0x80000000 : Nat) = 2 ^ 31 := by norm_num
  rw [Nat.testBit_land, h2, Nat.testBit_mod_two_pow]
  by_cases hk : k < 31
  · have ht : Nat.testBit 0x7fffffff k = true := by
      interval_cases k <;> decide
    simp [ht, hk]
  · have ht : Nat.testBit 0x7fffffff k = false := by
      have h31 : (0x7fffffff : Nat) < 2 ^ k := by
        calc (0x7fffffff : Nat) < 2 ^ 31 := by norm_num
        _ ≤ 2 ^ k := Nat.pow_le_pow_right (by norm_num) (by omega)
      exact Nat.testBit_lt_two_pow h31
    simp [ht, hk]

/- ------------------------------------------------------------------ -/
/- Helper lemmas shared by several claims.                             -/
/- ------------------------------------------------------------------ -/

/-- `random` in arithmetic form: the masked update is reduction mod `2^31`. -/
theorem Part1.random_eq (st : Part1.GenState) :
    Part1.random st =
      ((((st.seed * 1103515245 + 12345) % 0x80000000 : Nat) : ℚ) / 0x7fffffff,
        ⟨(st.seed * 1103515245 + 12345) % 0x80000000⟩) := by
  simp [Part1.random, land_mask31_eq_mod]

/-- Length of a row-major double loop. -/
theorem length_grid_flatMap {β : Type} (rows cols : Nat) (f : Nat → Nat → β) :
    ((List.range rows).flatMap fun r => (List.range cols).map (f r)).length =
      rows * cols := by
  induction rows with
  | zero => simp
  | succ n ih =>
      rw [List.range_succ, List.flatMap_append, List.length_append, ih]
      simp [Nat.succ_mul]

/-- Element `(row, col)` of a row-major double loop sits at index
`row * cols + col`. -/
theorem getElem_grid_flatMap {β : Type} (rows cols row col : Nat)
    (f : Nat → Nat → β) (hr : row < rows) (hc : col < cols) :
    ((List.range rows).flatMap fun r => (List.range cols).map (f r))[row * cols + col]? =
      some (f row col) := by
  induction rows with
  | zero => omega
  | succ n ih =>
      rw [List.range_succ, List.flatMap_append]
      by_cases h : row < n
      · rw [List.getElem?_append_left]
        · exact ih h
        · rw [length_grid_flatMap]
          calc row * cols + col < row * cols + cols := by omega
          _ = (row + 1) * cols := by ring
          _ ≤ n * cols := Nat.mul_le_mul_right _ (by omega)
      · have hrow : row = n := by omega
        subst hrow
        rw [List.getElem?_append_right (by rw [length_grid_flatMap]; omega)]
        rw [length_grid_flatMap, Nat.add_sub_cancel_left]
        simp [hc]

/- ------------------------------------------------------------------ -/
/- C1: the interlock law of the rectangular classic layout.            -/
/- ------------------------------------------------------------------ -/

/-- C1.  Interlock law: in the rectangular classic layout the two sides of
every internal edge are fed from the same tab-matrix cell with a sign flip —
piece `(row, col)`'s `rightTab` is `horizontalTabs[row][col]` while piece
`(row, col+1)`'s `leftTab` is `-horizontalTabs[row][col]`, and piece
`(row, col)`'s `bottomTab` is `-verticalTabs[row][col]` while piece
`(row+1, col)`'s `topTab` is `verticalTabs[row][col]`; in particular each is
the exact negation of its neighbour.  The final conjunct grounds the argument
functions in the generator: the classic piece stored at index
`row * cols + col` is built from exactly these four arguments. -/
theorem c1_interlock_law (H V : List (List Int)) (cols rows row col : Nat) :
    (row < rows → col + 1 < cols →
      rightTabArg H cols row col = mget H row col ∧
      leftTabArg H row (col + 1) = -(mget H row col) ∧
      leftTabArg H row (col + 1) = -(rightTabArg H cols row col)) ∧
    (row + 1 < rows → col < cols →
      bottomTabArg V rows row col = -(mget V row col) ∧
      topTabArg V (row + 1) col = mget V row col ∧
      topTabArg V (row + 1) col = -(bottomTabArg V rows row col)) ∧
    (∀ {α : Type} [inst : LinearOrderedField α] (width height margin lineWidth : α)
       (pieceType form : String) (st : Part1.GenState),
       pieceType ≠ "grid" → row < rows → col < cols →
       ∃ x y pw ph ts : α,
         (Part1.generateRectangularPuzzle cols rows width height margin
             pieceType lineWidth form st).pieces[row * cols + col]? =
           some (Part1.createClassicPiece x y pw ph ts
             (topTabArg (Part1.generateTabMatrix cols (rows - 1)
                 (Part1.generateTabMatrix (cols - 1) rows st).2).1 row col)
             (rightTabArg (Part1.generateTabMatrix (cols - 1) rows st).1 cols row col)
             (bottomTabArg (Part1.generateTabMatrix cols (rows - 1)
                 (Part1.generateTabMatrix (cols - 1) rows st).2).1 rows row col)
             (leftTabArg (Part1.generateTabMatrix (cols - 1) rows st).1 row col)
             row col)) := by
  refine ⟨?_, ?_, ?_⟩
  · intro _ hcol
    have h1 : col < cols - 1 := by omega
    refine ⟨by simp [rightTabArg, h1], by simp [leftTabArg], by simp [leftTabArg, rightTabArg, h1]⟩
  · intro hrow _
    have h1 : row < rows - 1 := by omega
    refine ⟨by simp [bottomTabArg, h1], by simp [topTabArg], by simp [topTabArg, bottomTabArg, h1]⟩
  · intro α _inst width height margin lineWidth pieceType form st hpt hr hc
    refine ⟨margin + (col : α) * ((width - 2 * margin) / (cols : α)),
      margin + (row : α) * ((height - 2 * margin) / (rows : α)),
      (width - 2 * margin) / (cols : α), (height - 2 * margin) / (rows : α),
      min ((width - 2 * margin) / (cols : α)) ((height - 2 * margin) / (rows : α)) * 0.22, ?_⟩
    show (Part1.generateRectangularPuzzle cols rows width height margin
        pieceType lineWidth form st).pieces[row * cols + col]? = _
    rw [Part1.generateRectangularPuzzle]
    rw [getElem_grid_flatMap rows cols row col _ hr hc]
    simp [Part1.rectPieceAt, hpt]

/-- Closed instance of C1 at a concrete matrix: with
`horizontalTabs = [[7]]` on a `2 × 1` grid, piece `(0,0)`'s right polarity is
`7` and piece `(0,1)`'s left polarity is `-7`. -/
theorem c1_interlock_law_witness :
    (0 : Nat) < 1 ∧ (0 : Nat) + 1 < 2 ∧
    rightTabArg [[7]] 2 0 0 = 7 ∧ leftTabArg [[7]] 0 1 = -7 := by
  refine ⟨by decide, by decide, ?_, ?_⟩
  · exact ((c1_interlock_law [[7]] [[5]] 2 1 0 0).1 (by decide) (by decide)).1.trans (by decide)
  · exact ((c1_interlock_law [[7]] [[5]] 2 1 0 0).1 (by decide) (by decide)).2.1.trans (by decide)

/- ------------------------------------------------------------------ -/
/- C2: piece count and position uniqueness of the rectangular layout.  -/
/- ------------------------------------------------------------------ -/

/-- The `(row, col)` key of the piece the loop body builds is the loop
index pair, for either piece style. -/
theorem Part1.rectPieceAt_key {α : Type} [LinearOrderedField α]
    (pieceType : String) (margin pieceWidth pieceHeight tabSize : α)
    (h v : List (List Int)) (cols rows row col : Nat) :
    ((Part1.rectPieceAt pieceType margin pieceWidth pieceHeight tabSize
        h v cols rows row col).row,
     (Part1.rectPieceAt pieceType margin pieceWidth pieceHeight tabSize
        h v cols rows row col).col) = (row, col) := by
  rw [Part1.rectPieceAt]
  split <;> rfl

/-- C2.  For all `cols, rows ≥ 1` the rectangular layout produces exactly
`cols * rows` pieces, their `(row, col)` keys are pairwise distinct, and
every key satisfies `row < rows`, `col < cols`. -/
theorem c2_piece_count_and_positions {α : Type} [LinearOrderedField α]
    (cols rows : Nat) (width height margin lineWidth : α)
    (pieceType form : String) (st : Part1.GenState)
    (hc : 1 ≤ cols) (hr : 1 ≤ rows) :
    (Part1.generateRectangularPuzzle cols rows width height margin pieceType
        lineWidth form st).pieces.length = cols * rows ∧
    ((Part1.generateRectangularPuzzle cols rows width height margin pieceType
        lineWidth form st).pieces.map fun p => (p.row, p.col)).Nodup ∧
    (∀ p ∈ (Part1.generateRectangularPuzzle cols rows width height margin
        pieceType lineWidth form st).pieces, p.row < rows ∧ p.col < cols) := by
  rw [Part1.generateRectangularPuzzle]
  refine ⟨?_, ?_, ?_⟩
  · rw [length_grid_flatMap]; ring
  · have hkey : (((List.range rows).flatMap fun (row : Nat) =>
        (List.range cols).map fun (col : Nat) =>
          Part1.rectPieceAt pieceType margin ((width - 2*margin) / (cols : α))
            ((height - 2*margin) / (rows : α))
            (min ((width - 2*margin) / (cols : α)) ((height - 2*margin) / (rows : α)) * 0.22)
            (Part1.generateTabMatrix (cols - 1) rows st).1
            (Part1.generateTabMatrix cols (rows - 1)
              (Part1.generateTabMatrix (cols - 1) rows st).2).1
            cols rows row col).map fun p => (p.row, p.col)) =
        (List.range rows).flatMap fun (row : Nat) =>
          (List.range cols).map fun (col : Nat) => (row, col) := by
      rw [List.map_flatMap]
      refine List.flatMap_congr ?_
      intro r _
      rw [List.map_map]
      refine List.map_congr_left ?_
      intro c _
      exact Part1.rectPieceAt_key ..
    refine hkey ▸ ?_
    have := List.Nodup.product (List.nodup_range rows) (List.nodup_range cols)
    simpa [List.product, SProd.sprod] using this
  · intro p hp
    simp only [List.mem_flatMap, List.mem_map, List.mem_range] at hp
    obtain ⟨r, hrr, c, hcc, rfl⟩ := hp
    have hk := Part1.rectPieceAt_key (α := α) pieceType margin
      ((width - 2*margin) / (cols : α)) ((height - 2*margin) / (rows : α))
      (min ((width - 2*margin) / (cols : α)) ((height - 2*margin) / (rows : α)) * 0.22)
      (Part1.generateTabMatrix (cols - 1) rows st).1
      (Part1.generateTabMatrix cols (rows - 1)
        (Part1.generateTabMatrix (cols - 1) rows st).2).1 cols rows r c
    rw [Prod.mk.injEq] at hk
    rw [hk.1, hk.2]
    exact ⟨hrr, hcc⟩

/-- Closed instance of C2: 3 columns by 2 rows, 6 pieces. -/
theorem c2_piece_count_and_positions_witness :
    1 ≤ 3 ∧ 1 ≤ 2 ∧
    (Part1.generateRectangularPuzzle 3 2 (800 : ℚ) 600 20 ("grid") (3/2)
        ("rectangular") ⟨0⟩).pieces.length = 3 * 2 := by
  exact ⟨by decide, by decide,
    (c2_piece_count_and_positions 3 2 (800 : ℚ) 600 20 (3/2) ("grid")
      ("rectangular") ⟨0⟩ (by decide) (by decide)).1⟩

/- ------------------------------------------------------------------ -/
/- C4: determinism of the tab-matrix generator under reseeding.        -/
/- ------------------------------------------------------------------ -/

/-- C4.  Two runs that each call `resetSeed(s)` and then
`generateTabMatrix(cols, rows)` produce identical matrices, whatever
generator states the two runs started from: `resetSeed` overwrites the whole
state, and `generateTabMatrix` reads nothing but the seed. -/
theorem c4_tab_matrix_determinism (s cols rows : Nat)
    (g1 g2 : Part1.GenState) :
    (Part1.generateTabMatrix cols rows (Part1.resetSeed s g1)).1 =
      (Part1.generateTabMatrix cols rows (Part1.resetSeed s g2)).1 := rfl

/- ------------------------------------------------------------------ -/
/- C10: generate reseeds from the clock, ignoring any caller seed.     -/
/- ------------------------------------------------------------------ -/

/-- C10.  `generate` invokes `resetSeed()` — reseeding from the wall clock
(`Date.now()`, the `now` parameter) — as its first action, so with the clock
held fixed its output does not depend on whatever seed the caller had
installed beforehand; the `Options` record offers no seed field, so the
public interface has no reproducibility control. -/
theorem c10_generate_ignores_prior_seed {α : Type} [LinearOrderedField α]
    (K : ArcKernel α) (o : Part1.Options α) (now s1 s2 : Nat) :
    Part1.generate K o now ⟨s1⟩ = Part1.generate K o now ⟨s2⟩ := rfl

/- ------------------------------------------------------------------ -/
/- C9: the circular classic piece ignores its tab arguments.           -/
/- ------------------------------------------------------------------ -/

/-- C9.  `createCircularClassicPiece` never reads `tabSize`, `innerTab` or
`outerTab`: two option records that agree on everything else produce
identical pieces, and the produced path carries no curve commands at all —
both radial edges are plain straight `lineTo` segments. -/
theorem c9_circular_classic_ignores_tabs {α : Type} [LinearOrderedField α]
    (K : ArcKernel α) (o1 o2 : Part1.CircClassicOpts α)
    (h : o1.centerX = o2.centerX ∧ o1.centerY = o2.centerY ∧
      o1.innerRadius = o2.innerRadius ∧ o1.outerRadius = o2.outerRadius ∧
      o1.startAngle = o2.startAngle ∧ o1.endAngle = o2.endAngle ∧
      o1.ring = o2.ring ∧ o1.segment = o2.segment ∧
      o1.totalSegments = o2.totalSegments) :
    Part1.createCircularClassicPiece K o1 = Part1.createCircularClassicPiece K o2 ∧
    ∀ cmd ∈ (Part1.createCircularClassicPiece K o1).path,
      (match cmd with
       | PathCmd.cubicTo .. => False
       | PathCmd.quadTo .. => False
       | _ => True) := by
  obtain ⟨o1cx, o1cy, o1ir, o1or, o1sa, o1ea, o1rg, o1sg, o1ts⟩ := o1
  obtain ⟨o2cx, o2cy, o2ir, o2or, o2sa, o2ea, o2rg, o2sg, o2ts⟩ := o2
  obtain ⟨h1, h2, h3, h4, h5, h6, h7, h8, h9⟩ := h
  simp only at h1 h2 h3 h4 h5 h6 h7 h8 h9
  subst h1 h2 h3 h4 h5 h6 h7 h8 h9
  refine ⟨rfl, ?_⟩
  intro cmd hcmd
  rw [Part1.createCircularClassicPiece] at hcmd
  simp only at hcmd
  split at hcmd <;> simp only [List.mem_cons, List.mem_singleton] at hcmd <;>
    rcases hcmd with rfl | rfl | rfl | rfl | rfl | h0 <;> first | trivial | simp_all

/-- Closed instance of C9: two concrete option records that differ exactly
in `tabSize`, `innerTab` and `outerTab` yield the same piece. -/
theorem c9_circular_classic_ignores_tabs_witness :
    Part1.createCircularClassicPiece zeroKernel
        ⟨0, 0, 1, 2, 0, 1, 5, 1, -1, 0, 0, 8⟩ =
      Part1.createCircularClassicPiece zeroKernel
        ⟨0, 0, 1, 2, 0, 1, 9, -1, 1, 0, 0, 8⟩ :=
  (c9_circular_classic_ignores_tabs zeroKernel
    ⟨0, 0, 1, 2, 0, 1, 5, 1, -1, 0, 0, 8⟩
    ⟨0, 0, 1, 2, 0, 1, 9, -1, 1, 0, 0, 8⟩
    ⟨rfl, rfl, rfl, rfl, rfl, rfl, rfl, rfl, rfl⟩).1

/- ------------------------------------------------------------------ -/
/- C3: the LCG recurrence and the emit threshold.                      -/
/- ------------------------------------------------------------------ -/

/-- The draw reports `+1` exactly when the updated seed is at least `2^30`
(the source divides by `0x7fffffff = 2^31 - 1`, so the threshold test
`> 0.5` is `2 * seed' > 2^31 - 1`). -/
theorem Part1.random_fst_gt_half_iff (st : Part1.GenState) :
    (Part1.random st).1 > 1/2 ↔ 2 ^ 30 ≤ ((Part1.random st).2).seed := by
  rw [Part1.random_eq]
  simp only
  constructor
  · intro h
    rw [gt_iff_lt, lt_div_iff (by norm_num : (0:ℚ) < 0x7fffffff)] at h
    have h2 : (2147483647 : ℚ) <
        2 * (((st.seed * 1103515245 + 12345) % 0x80000000 : Nat) : ℚ) := by
      linarith
    have h3 : (2147483647 : Nat) <
        2 * ((st.seed * 1103515245 + 12345) % 0x80000000) := by exact_mod_cast h2
    omega
  · intro h
    rw [gt_iff_lt, lt_div_iff (by norm_num : (0:ℚ) < 0x7fffffff)]
    have h2 : (2147483648 : Nat) ≤
        2 * ((st.seed * 1103515245 + 12345) % 0x80000000) := by omega
    have h3 : (2147483648 : ℚ) ≤
        2 * (((st.seed * 1103515245 + 12345) % 0x80000000 : Nat) : ℚ) := by
      exact_mod_cast h2
    linarith

/-- `tabEntry` in threshold form. -/
theorem Part1.tabEntry_eq (st : Part1.GenState) :
    Part1.tabEntry st =
      ((if 2 ^ 30 ≤ ((Part1.random st).2).seed then 1 else -1),
        (Part1.random st).2) := by
  rw [Part1.tabEntry]
  by_cases h : (Part1.random st).1 > 1/2
  · rw [if_pos h, if_pos ((Part1.random_fst_gt_half_iff st).mp h)]
  · rw [if_neg h, if_neg (fun hh => h ((Part1.random_fst_gt_half_iff st).mpr hh))]

/-- Generic loop lemma: the final state is the step's state map iterated. -/
theorem loopN_snd {σ β : Type} (f : σ → β × σ) (n : Nat) (st : σ) :
    (loopN f n st).2 = (fun s => (f s).2)^[n] st := by
  induction n generalizing st with
  | zero => rfl
  | succ k ih =>
      simp only [loopN]
      rw [ih, ← Function.iterate_succ_apply]

/-- Generic loop lemma: the `i`-th pushed value is the step applied to the
state after `i` earlier steps. -/
theorem loopN_getD {σ β : Type} (f : σ → β × σ) (n i : Nat) (st : σ) (d : β)
    (h : i < n) :
    (loopN f n st).1.getD i d = (f ((fun s => (f s).2)^[i] st)).1 := by
  induction n generalizing i st with
  | zero => omega
  | succ k ih =>
      cases i with
      | zero => rfl
      | succ j =>
          simp only [loopN, List.getD_cons_succ]
          rw [ih _ _ (by omega), ← Function.iterate_succ_apply]

/-- `stepN` composes additively. -/
theorem stepN_add (a b : Nat) (st : Part1.GenState) :
    stepN (a + b) st = stepN b (stepN a st) := by
  rw [stepN, stepN, stepN, Nat.add_comm, Function.iterate_add_apply]

/-- The state after one row of draws. -/
theorem Part1.tabRow_snd (cols : Nat) (st : Part1.GenState) :
    (Part1.tabRow cols st).2 = stepN cols st := by
  rw [Part1.tabRow, loopN_snd, stepN]
  rfl

/-- Entry `col` of one row is the draw made after `col` prior draws. -/
theorem Part1.tabRow_getD (cols col : Nat) (st : Part1.GenState)
    (h : col < cols) :
    (Part1.tabRow cols st).1.getD col 0 = (Part1.tabEntry (stepN col st)).1 := by
  rw [Part1.tabRow, loopN_getD _ _ _ _ _ h, stepN]
  rfl

/-- Iterating `cols` draws `row` times is `row * cols` draws. -/
theorem stepN_mul_iterate (cols row : Nat) (st : Part1.GenState) :
    (fun s => stepN cols s)^[row] st = stepN (row * cols) st := by
  induction row generalizing st with
  | zero =>
      rw [Nat.zero_mul, stepN]
      simp only [Function.iterate_zero_apply]
  | succ r ih =>
      have hmul : (r + 1) * cols = cols + r * cols := by ring
      rw [Function.iterate_succ_apply, ih, hmul, stepN_add]

/-- Row `row` of the matrix starts after `row * cols` prior draws. -/
theorem Part1.tabRows_getD (cols rows row : Nat) (st : Part1.GenState)
    (h : row < rows) :
    (Part1.tabRows cols rows st).1.getD row [] =
      (Part1.tabRow cols (stepN (row * cols) st)).1 := by
  rw [Part1.tabRows, loopN_getD _ _ _ _ _ h]
  have hfe : (fun s => (Part1.tabRow cols s).2) = fun s => stepN cols s := by
    funext s
    exact Part1.tabRow_snd cols s
  rw [hfe, stepN_mul_iterate]

/-- C3, counterexample.  At seed `1014474371` the next state is exactly
`2^30 = 1073741824` (this instance has been checked against the IEEE-double
computation the JavaScript engine performs), and the generator emits `+1` —
`1073741824 / 0x7fffffff > 0.5` — while the spec's rule, dividing by `2^31`,
yields `1073741824 / 2^31 = 0.5`, not greater than `0.5`, hence `-1`.  The
claim's "emitted entry is +1 exactly when seed'/2^31 > 0.5" is therefore
false at this seed. -/
theorem c3_counterexample :
    Part1.generateTabMatrix 1 1 ⟨1014474371⟩ = ([[1]], ⟨1073741824⟩) ∧
    specEmitRule 1073741824 = -1 := by
  constructor
  · norm_num [Part1.generateTabMatrix, Part1.tabRows, Part1.tabRow, loopN,
      Part1.tabEntry, Part1.random_eq]
  · norm_num [specEmitRule]

/-- C3, amended.  The state advances by
`seed' = (seed * 1103515245 + 12345) mod 2^31` (the source's
`& 0x7fffffff`), and each emitted matrix entry is `+1` exactly when
`seed' / (2^31 - 1) > 0.5`, i.e. exactly when `seed' ≥ 2^30`, else `-1`;
entry `(row, col)` is produced by the draw made after `row * cols + col`
earlier draws. -/
theorem c3_amended_lcg_recurrence_and_threshold :
    (∀ st : Part1.GenState,
       ((Part1.random st).2).seed = (st.seed * 1103515245 + 12345) % 2 ^ 31) ∧
    (∀ st : Part1.GenState,
       ((Part1.random st).1 > 1/2 ↔ 2 ^ 30 ≤ ((Part1.random st).2).seed)) ∧
    (∀ (cols rows row col : Nat) (st : Part1.GenState),
       row < rows → col < cols →
       mget (Part1.generateTabMatrix cols rows st).1 row col =
         if 2 ^ 30 ≤ ((Part1.random (stepN (row * cols + col) st)).2).seed
         then 1 else -1) := by
  refine ⟨?_, Part1.random_fst_gt_half_iff, ?_⟩
  · intro st
    rw [Part1.random_eq]
    norm_num
  · intro cols rows row col st hr hc
    show (((Part1.tabRows cols rows st).1.getD row []).getD col 0) = _
    rw [Part1.tabRows_getD cols rows row st hr,
      Part1.tabRow_getD cols col _ hc, ← stepN_add, Part1.tabEntry_eq]

/-- Closed instance of the amended C3 at seed `1014474371`: the first entry
of a `1 × 1` matrix is `+1` because the updated seed `1073741824` reaches
`2^30`. -/
theorem c3_amended_witness :
    (0 : Nat) < 1 ∧
    mget (Part1.generateTabMatrix 1 1 ⟨1014474371⟩).1 0 0 = 1 := by
  refine ⟨by decide, ?_⟩
  have h := c3_amended_lcg_recurrence_and_threshold.2.2 1 1 0 0 ⟨1014474371⟩
    (by decide) (by decide)
  rw [h]
  norm_num [stepN, Part1.random_eq]

/- ------------------------------------------------------------------ -/
/- C5: error handling of the layout call.                              -/
/- ------------------------------------------------------------------ -/

/-- `loopN` emits exactly `n` entries. -/
theorem loopN_length {σ β : Type} (f : σ → β × σ) (n : Nat) (st : σ) :
    ((loopN f n st).1).length = n := by
  induction n generalizing st with
  | zero => rfl
  | succ k ih => simpa [loopN] using ih (f st).2

/-- The tab matrix has exactly `rows` rows. -/
theorem generateTabMatrix_fst_length (cols rows : Nat) (st : Part1.GenState) :
    ((Part1.generateTabMatrix cols rows st).1).length = rows :=
  loopN_length (Part1.tabRow cols) rows st

/-- An error survives `Except.map`. -/
theorem exceptMap_error {β γ : Type} (g : β → γ) (x : Except String β)
    (h : ∃ e, x = Except.error e) : ∃ e, Except.map g x = Except.error e := by
  obtain ⟨e, he⟩ := h
  exact ⟨e, by rw [he]; rfl⟩

/-- `collectE` fails whenever some element fails. -/
theorem collectE_error {β : Type} (l : List (Except String β))
    (h : ∃ x ∈ l, ∃ e, x = Except.error e) :
    ∃ e, collectE l = Except.error e := by
  induction l with
  | nil => simp at h
  | cons a rest ih =>
    cases a with
    | error e => exact ⟨e, rfl⟩
    | ok b =>
      obtain ⟨x, hx, e, hxe⟩ := h
      rcases List.mem_cons.mp hx with h1 | h2
      · rw [h1] at hxe
        exact absurd hxe (by simp)
      · obtain ⟨e2, he2⟩ := ih ⟨x, h2, e, hxe⟩
        refine ⟨e2, ?_⟩
        have hc : collectE (Except.ok b :: rest) =
            (collectE rest).map fun l => b :: l := rfl
        rw [hc, he2]
        rfl

/-- The circular classic layout reads row `segment` of a tab matrix that has
only `rings - 1` rows: with at least two rings and at least as many segments
the first ring's piece at `segment = rings - 1` already throws. -/
theorem circular_classic_throws {α : Type} [LinearOrderedField α]
    (K : ArcKernel α) (o : Part1.Options α) (now : Nat) (st : Part1.GenState)
    (hform : o.form = "circular") (hpt : o.pieceType ≠ "grid")
    (h2 : 2 ≤ o.rows) (hsc : o.rows ≤ o.cols) :
    ∃ e, Part1.generate K o now st = Except.error e := by
  rw [Part1.generate]
  rw [if_pos hform]
  apply exceptMap_error
  rw [Part1.generateCircularPuzzle]
  apply exceptMap_error
  apply collectE_error
  have hlen : ((Part1.generateTabMatrix o.cols (o.rows - 1)
      (Part1.resetSeed now st)).1).length = o.rows - 1 :=
    generateTabMatrix_fst_length o.cols (o.rows - 1) _
  have hnone : (Part1.generateTabMatrix o.cols (o.rows - 1)
      (Part1.resetSeed now st)).1[o.rows - 1]? = none :=
    List.getElem?_eq_none (le_of_eq hlen)
  refine ⟨_, List.mem_flatMap.mpr ⟨0, List.mem_range.mpr (by omega),
    List.mem_map.mpr ⟨o.rows - 1, List.mem_range.mpr (by omega), rfl⟩⟩, ?_⟩
  refine ⟨("TypeError: Cannot read properties of undefined"), ?_⟩
  beta_reduce
  lift_lets
  extract_lets innerRadius outerRadius startAngle endAngle
  rw [if_neg hpt, if_neg (lt_irrefl 0), if_pos (show 0 < o.rows - 1 by omega),
    mgetE, hnone]

/-- C5, counterexample.  The claim says an unrecognised `form` fails with an
`UnsupportedShape` condition and a zero or negative grid fails with an
`InvalidGrid` condition.  Neither failure exists: part_001's `generate`
treats the unrecognised form `"hexagonal"` as rectangular and returns a
puzzle, and puzzle-generator.js's `generate` accepts `cols = 0` and returns
a puzzle with an empty piece list instead of any `InvalidGrid` error. -/
theorem c5_counterexample :
    Part1.generate zeroKernel
        ⟨"hexagonal", "grid", 2, 2, 10, 10, 1, 1⟩ 0 ⟨0⟩ =
      Except.ok (Part1.Puzzle.rect (Part1.generateRectangularPuzzle 2 2 10 10 1
        ("grid") 1 ("hexagonal") ⟨0⟩)) ∧
    PJS.generate zeroKernel ("rectangular") 0 2 10 10 1 ⟨fun _ => 0, 0⟩ =
      Except.ok (PJS.Result.rect ⟨[], 10, 10, 0, 2, "rectangular"⟩) := by
  constructor
  · rfl
  · rfl

/-- C5, amended.  part_001's `generate` succeeds for every form other than
`circular` — unrecognised values included are laid out as rectangular
puzzles (after the square-size adjustment), with no grid validation — but
its circular classic branch indexes the `rings - 1`-row radial tab matrix
by segment and so throws a `TypeError` whenever `2 ≤ rings ≤ segments`.
puzzle-generator.js's `generate` throws `Error('Unknown puzzle shape')` for
exactly the shapes outside `rectangular`/`square`/`circular` (an
`UnsupportedShape` condition reported to the caller), but it too performs no
grid validation: non-positive `cols` or `rows` yield a successful result
whose piece list is empty — no `InvalidGrid` condition exists anywhere. -/
theorem c5_amended_error_handling :
    (∀ {α : Type} [inst : LinearOrderedField α] (K : ArcKernel α)
       (o : Part1.Options α) (now : Nat) (st : Part1.GenState),
       o.form ≠ "circular" →
       Part1.generate K o now st =
         Except.ok (Part1.Puzzle.rect (Part1.generateRectangularPuzzle o.cols
           o.rows
           (if o.form = "square" then min o.width o.height else o.width)
           (if o.form = "square" then min o.width o.height else o.height)
           o.margin o.pieceType o.lineWidth o.form (Part1.resetSeed now st)))) ∧
    (∀ {α : Type} [inst : LinearOrderedField α] (K : ArcKernel α)
       (o : Part1.Options α) (now : Nat) (st : Part1.GenState),
       o.form = "circular" → o.pieceType ≠ "grid" →
       2 ≤ o.rows → o.rows ≤ o.cols →
       ∃ e, Part1.generate K o now st = Except.error e) ∧
    (∀ {α : Type} [inst : LinearOrderedField α] (K : ArcKernel α)
       (shape : String) (cols rows : Int) (width height margin : α)
       (rng : PJS.Rng),
       (∃ e, PJS.generate K shape cols rows width height margin rng =
           Except.error e) ↔
         ¬ (shape = "rectangular" ∨ shape = "square" ∨ shape = "circular")) ∧
    (∀ {α : Type} [inst : LinearOrderedField α] (K : ArcKernel α)
       (cols rows : Int) (width height margin : α) (rng : PJS.Rng),
       cols ≤ 0 ∨ rows ≤ 0 →
       ∃ pz : PJS.RectPuzzle α,
         PJS.generate K ("rectangular") cols rows width height margin rng =
           Except.ok (PJS.Result.rect pz) ∧ pz.pieces = []) := by
  refine ⟨?_, ?_, ?_, ?_⟩
  · intro α _inst K o now st h
    rw [Part1.generate]
    simp only [h, if_false]
  · intro α _inst K o now st hform hpt hr2 hrc
    exact circular_classic_throws K o now st hform hpt hr2 hrc
  · intro α _inst K shape cols rows width height margin rng
    rw [PJS.generate]
    by_cases h1 : shape = "rectangular" ∨ shape = "square"
    · simp only [h1, if_true]
      constructor
      · rintro ⟨e, he⟩
        cases he
      · intro hno
        exact absurd (by tauto) hno
    · by_cases h2 : shape = "circular"
      · simp only [h1, if_false, h2, if_true]
        constructor
        · rintro ⟨e, he⟩
          cases he
        · intro hno
          exact absurd (by tauto) hno
      · simp only [h1, if_false, h2]
        constructor
        · intro _
          tauto
        · intro _
          exact ⟨"Unknown puzzle shape", rfl⟩
  · intro α _inst K cols rows width height margin rng h
    refine ⟨PJS.generateRectangularPuzzle cols rows width height margin rng,
      by rw [PJS.generate]; simp, ?_⟩
    rw [PJS.generateRectangularPuzzle]
    rcases h with hc | hr
    · have h0 : cols.toNat = 0 := Int.toNat_of_nonpos hc
      simp [h0]
    · have h0 : rows.toNat = 0 := Int.toNat_of_nonpos hr
      simp [h0]

/-- Closed instance of the amended C5: an 8-segment 3-ring circular classic
request makes part_001's `generate` throw, the unknown shape `"blob"` is the
one case where puzzle-generator.js errors, and `cols = 0` yields an empty
successful layout there. -/
theorem c5_amended_witness :
    (∃ e, Part1.generate zeroKernel
        ⟨"circular", "classic", 8, 3, 10, 10, 1, 1⟩ 0 ⟨0⟩ = Except.error e) ∧
    (∃ e, PJS.generate zeroKernel ("blob") 3 3 (10 : ℚ) 10 1 ⟨fun _ => 0, 0⟩ =
      Except.error e) ∧
    (∃ pz : PJS.RectPuzzle ℚ,
      PJS.generate zeroKernel ("rectangular") 0 2 10 10 1 ⟨fun _ => 0, 0⟩ =
        Except.ok (PJS.Result.rect pz) ∧ pz.pieces = []) := by
  refine ⟨?_, ?_, ?_⟩
  · exact c5_amended_error_handling.2.1 zeroKernel
      ⟨"circular", "classic", 8, 3, 10, 10, 1, 1⟩ 0 ⟨0⟩ rfl (by decide)
      (by decide) (by decide)
  · exact (c5_amended_error_handling.2.2.1 zeroKernel ("blob") 3 3 10 10 1
      ⟨fun _ => 0, 0⟩).mpr (by decide)
  · exact c5_amended_error_handling.2.2.2 zeroKernel 0 2 10 10 1
      ⟨fun _ => 0, 0⟩ (Or.inl (by decide))

/- ------------------------------------------------------------------ -/
/- C8: arc flags and the pie-wedge degeneration of circular pieces.    -/
/- ------------------------------------------------------------------ -/

/-- C8, counterexample.  In part_002's `createCircularPiece` the pie-wedge
test is `innerRadius < 1`, not `innerRadius === 0`: with
`innerRadius = 1/2 > 0` the emitted path is the four-command pie wedge and
carries no inner arc at all, refuting "for every circular grid piece with
`innerRadius > 0` the emitted path's inner arc carries sweep flag 1". -/
theorem c8_counterexample :
    (0 : ℚ) < 1/2 ∧
    (Part2.createCircularPiece zeroKernel 0 0 (1/2) 2 0 1 0 0).path =
      [.moveTo 0 0, .lineTo 0 0, .arcTo 2 2 0 true true 0 0, .closePath] := by
  constructor
  · norm_num
  · norm_num [Part2.createCircularPiece, zeroKernel]

/-- C8, amended.  part_001's `createCircularGridPiece`: for `innerRadius ≠ 0`
the path is the annular sector whose inner arc carries sweep flag 1 and
whose outer arc carries sweep flag 0, both with `largeArcFlag = 1` exactly
when the subtended angle exceeds π; for `innerRadius = 0` it is the pie
wedge (centre point, one radial edge, the outer arc, close back to the
centre).  part_002's `createCircularPiece` behaves identically except that
its wedge test is `innerRadius < 1`, so the annular form requires
`innerRadius ≥ 1` there. -/
theorem c8_amended_arc_flags :
    (∀ {α : Type} [inst : LinearOrderedField α] (K : ArcKernel α)
       (cx cy innerR outerR sa ea : α) (ring seg : Nat), innerR ≠ 0 →
       ∃ (la : Bool) (x1 y1 x2 y2 x3 y3 x4 y4 : α),
         (Part1.createCircularGridPiece K cx cy innerR outerR sa ea ring seg).path =
           [.moveTo x1 y1, .arcTo innerR innerR 0 la true x2 y2,
            .lineTo x3 y3, .arcTo outerR outerR 0 la false x4 y4, .closePath] ∧
         (la = true ↔ K.pi < ea - sa)) ∧
    (∀ {α : Type} [inst : LinearOrderedField α] (K : ArcKernel α)
       (cx cy outerR sa ea : α) (ring seg : Nat),
       ∃ (la : Bool) (x3 y3 x4 y4 : α),
         (Part1.createCircularGridPiece K cx cy 0 outerR sa ea ring seg).path =
           [.moveTo cx cy, .lineTo x4 y4,
            .arcTo outerR outerR 0 la true x3 y3, .closePath] ∧
         (la = true ↔ K.pi < ea - sa)) ∧
    (∀ {α : Type} [inst : LinearOrderedField α] (K : ArcKernel α)
       (cx cy innerR outerR sa ea : α) (ring seg : Nat), 1 ≤ innerR →
       ∃ (la : Bool) (x1 y1 x2 y2 x3 y3 x4 y4 : α),
         (Part2.createCircularPiece K cx cy innerR outerR sa ea ring seg).path =
           [.moveTo x1 y1, .arcTo innerR innerR 0 la true x2 y2,
            .lineTo x3 y3, .arcTo outerR outerR 0 la false x4 y4, .closePath] ∧
         (la = true ↔ K.pi < ea - sa)) ∧
    (∀ {α : Type} [inst : LinearOrderedField α] (K : ArcKernel α)
       (cx cy innerR outerR sa ea : α) (ring seg : Nat), innerR < 1 →
       ∃ (la : Bool) (x3 y3 x4 y4 : α),
         (Part2.createCircularPiece K cx cy innerR outerR sa ea ring seg).path =
           [.moveTo cx cy, .lineTo x4 y4,
            .arcTo outerR outerR 0 la true x3 y3, .closePath] ∧
         (la = true ↔ K.pi < ea - sa)) := by
  refine ⟨?_, ?_, ?_, ?_⟩
  · intro α _inst K cx cy innerR outerR sa ea ring seg h
    refine ⟨decide (ea - sa > K.pi), cx + K.cos sa * innerR, cy + K.sin sa * innerR,
      cx + K.cos ea * innerR, cy + K.sin ea * innerR,
      cx + K.cos ea * outerR, cy + K.sin ea * outerR,
      cx + K.cos sa * outerR, cy + K.sin sa * outerR, ?_, decide_eq_true_iff⟩
    simp only [Part1.createCircularGridPiece, if_neg h]
  · intro α _inst K cx cy outerR sa ea ring seg
    refine ⟨decide (ea - sa > K.pi),
      cx + K.cos ea * outerR, cy + K.sin ea * outerR,
      cx + K.cos sa * outerR, cy + K.sin sa * outerR, ?_, decide_eq_true_iff⟩
    simp [Part1.createCircularGridPiece]
  · intro α _inst K cx cy innerR outerR sa ea ring seg h
    have h1 : ¬ innerR < 1 := not_lt.mpr h
    refine ⟨decide (ea - sa > K.pi), cx + K.cos sa * innerR, cy + K.sin sa * innerR,
      cx + K.cos ea * innerR, cy + K.sin ea * innerR,
      cx + K.cos ea * outerR, cy + K.sin ea * outerR,
      cx + K.cos sa * outerR, cy + K.sin sa * outerR, ?_, decide_eq_true_iff⟩
    simp only [Part2.createCircularPiece, if_neg h1]
  · intro α _inst K cx cy innerR outerR sa ea ring seg h
    refine ⟨decide (ea - sa > K.pi),
      cx + K.cos ea * outerR, cy + K.sin ea * outerR,
      cx + K.cos sa * outerR, cy + K.sin sa * outerR, ?_, decide_eq_true_iff⟩
    simp only [Part2.createCircularPiece, if_pos h]

/-- Closed instance of the amended C8: a concrete annular sector from
part_001 with `innerRadius = 1`. -/
theorem c8_amended_witness :
    (1 : ℚ) ≠ 0 ∧
    ∃ (la : Bool) (x1 y1 x2 y2 x3 y3 x4 y4 : ℚ),
      (Part1.createCircularGridPiece zeroKernel 0 0 1 2 0 1 0 0).path =
        [.moveTo x1 y1, .arcTo 1 1 0 la true x2 y2,
         .lineTo x3 y3, .arcTo 2 2 0 la false x4 y4, .closePath] ∧
      (la = true ↔ zeroKernel.pi < 1 - 0) :=
  ⟨by norm_num,
    c8_amended_arc_flags.1 zeroKernel 0 0 1 2 0 1 0 0 (by norm_num)⟩

/- ------------------------------------------------------------------ -/
/- C7: the drawing-exchange (DXF) exporter.                            -/
/- ------------------------------------------------------------------ -/

/-- An infix of the left part is an infix of an append. -/
theorem infix_extend_right {x l r : List Char} (h : x <:+: l) :
    x <:+: l ++ r := by
  obtain ⟨s, t, rfl⟩ := h
  exact ⟨s, t ++ r, by simp⟩

/-- A list is an infix of anything followed by itself. -/
theorem infix_of_tail {x l : List Char} : x <:+: l ++ x :=
  ⟨l, [], by simp⟩

/-- No digit rendering contains the letter `W`. -/
theorem count_W_natToChars (n : Nat) :
    (ExportUtils.natToChars n).count ('W') = 0 := by
  induction n using Nat.strong_induction_on with
  | _ n ih =>
      rw [ExportUtils.natToChars]
      have hd : ∀ k, k < 10 → ExportUtils.digitChar k ≠ ('W') := by
        intro k hk
        interval_cases k <;> decide
      split
      · next h =>
          simp [List.count_singleton, hd n h]
      · next h =>
          rw [List.count_append, ih (n / 10) (Nat.div_lt_self (by omega) (by omega))]
          simp [List.count_singleton, hd (n % 10) (by omega)]

/-- No fixed-decimal rendering contains the letter `W`. -/
theorem count_W_toFixed4 (q : ℚ) :
    (ExportUtils.toFixed4 q).count ('W') = 0 := by
  rw [ExportUtils.toFixed4]
  simp only [ExportUtils.pad4, List.count_append]
  rw [count_W_natToChars, count_W_natToChars, List.count_replicate,
    if_neg (show ¬ (('0' == 'W') = true) by decide)]
  have h1 : List.count ('W') (['.'] : List Char) = 0 := by decide
  have h2 : List.count ('W') (['-'] : List Char) = 0 := by decide
  rw [h1]
  split
  · rw [h2]
  · rw [List.count_nil]

/-- No vertex line contains the letter `W`. -/
theorem count_W_vertexChars (hMM : ℚ) (pt : Point ℚ) :
    (ExportUtils.vertexChars hMM pt).count ('W') = 0 := by
  rw [ExportUtils.vertexChars]
  simp only [List.count_append]
  rw [count_W_toFixed4, count_W_toFixed4]
  decide

/-- Flattened counts add up. -/
theorem count_flatten (l : List (List Char)) (c : Char) :
    l.flatten.count c = (l.map fun x => x.count c).sum := by
  induction l with
  | nil => rfl
  | cons h t ih => simp [List.count_append, ih]

/-- A polyline block for at least two points contains exactly one `W` (the
one in its `LWPOLYLINE` marker) when its layer name contains none. -/
theorem count_W_pathToPolyline (K : ArcKernel ℚ) (path : List (PathCmd ℚ))
    (layer : String) (hMM : ℚ)
    (h : 2 ≤ (ExportUtils.getPathPoints K path 16).length)
    (hl : layer.data.count ('W') = 0) :
    (ExportUtils.pathToPolyline K path layer hMM).count ('W') = 1 := by
  rw [ExportUtils.pathToPolyline]
  rw [if_neg (by omega)]
  simp only [List.count_append]
  rw [count_W_natToChars, hl, count_flatten]
  have hmap : ((ExportUtils.getPathPoints K path 16).map
      (ExportUtils.vertexChars hMM)).map (fun x => x.count ('W')) =
      (ExportUtils.getPathPoints K path 16).map (fun _ => 0) := by
    rw [List.map_map]
    exact List.map_congr_left fun pt _ => count_W_vertexChars hMM pt
  rw [hmap]
  have hsum : ((ExportUtils.getPathPoints K path 16).map
      (fun _ => (0 : Nat))).sum = 0 := by
    refine List.sum_eq_zero ?_
    intro x hx
    simp only [List.mem_map] at hx
    obtain ⟨_, _, rfl⟩ := hx
    rfl
  rw [hsum]
  decide

/-- Summing a constant 1 counts the elements. -/
theorem sum_map_one {β : Type} (l : List β) :
    (l.map fun _ => (1 : Nat)).sum = l.length := by
  induction l with
  | nil => rfl
  | cons h t ih => simp [ih, Nat.add_comm]

set_option maxHeartbeats 1600000 in
/-- C7.  The DXF exporter emits a header declaring millimetre units
(`$INSUNITS = 4`), a layer table containing the layers `CUT` and `BORDER`,
and exactly one closed `LWPOLYLINE` entity per piece plus one for the border
(counted by the letter `W`, which occurs exactly once per `LWPOLYLINE`
marker and nowhere else in the document); each polyline block carries the
closed flag `70 1` and one vertex pair per flattened point, converted as
`xMM = xPx / 3.7795275591` and `yMM = heightMM - yPx / 3.7795275591` at
fixed 4-decimal precision; the piece blocks are emitted on layer `CUT` and
the border block on layer `BORDER`, both with
`heightMM = height / 3.7795275591`. -/
theorem c7_dxf_exporter (K : ArcKernel ℚ) (p : ExportUtils.PuzzleData)
    (hp : ∀ path ∈ p.pieces, 2 ≤ (ExportUtils.getPathPoints K path 16).length)
    (hb : ∀ b, p.borderPath = some b →
      2 ≤ (ExportUtils.getPathPoints K b 16).length) :
    (("9\n$INSUNITS\n70\n4\n").data <:+: ExportUtils.exportDXF K p) ∧
    (("0\nLAYER\n2\nCUT\n70\n0\n62\n1\n6\nCONTINUOUS\n").data <:+:
      ExportUtils.exportDXF K p) ∧
    (("0\nLAYER\n2\nBORDER\n70\n0\n62\n5\n6\nCONTINUOUS\n").data <:+:
      ExportUtils.exportDXF K p) ∧
    ((ExportUtils.exportDXF K p).count ('W') =
      p.pieces.length + (match p.borderPath with | some _ => 1 | none => 0)) ∧
    (∀ (path : List (PathCmd ℚ)) (layer : String) (hMM : ℚ),
       2 ≤ (ExportUtils.getPathPoints K path 16).length →
       ExportUtils.pathToPolyline K path layer hMM =
         ("0\nLWPOLYLINE\n").data ++ ("100\nAcDbEntity\n").data ++
         ("8\n").data ++ layer.data ++ ("\n").data ++
         ("100\nAcDbPolyline\n").data ++ ("90\n").data ++
         ExportUtils.natToChars (ExportUtils.getPathPoints K path 16).length ++
         ("\n").data ++ ("70\n1\n").data ++
         ((ExportUtils.getPathPoints K path 16).map (specVertexChars hMM)).flatten) ∧
    ((p.pieces.map fun path =>
        ExportUtils.pathToPolyline K path ("CUT") (p.height / 3.7795275591)).flatten
      <:+: ExportUtils.exportDXF K p) ∧
    (∀ b, p.borderPath = some b →
      ExportUtils.pathToPolyline K b ("BORDER") (p.height / 3.7795275591)
        <:+: ExportUtils.exportDXF K p) := by
  have z1 : (("0\nSECTION\n2\nHEADER\n").data).count ('W') = 0 := by decide
  have z2 : (("9\n$ACADVER\n1\nAC1015\n").data).count ('W') = 0 := by decide
  have z3 : (("9\n$INSUNITS\n70\n4\n").data).count ('W') = 0 := by decide
  have z4 : (("9\n$EXTMIN\n10\n0.0\n20\n0.0\n30\n0.0\n").data).count ('W') = 0 := by
    decide
  have z5 : (("9\n$EXTMAX\n10\n").data).count ('W') = 0 := by decide
  have z6 : (("\n20\n").data).count ('W') = 0 := by decide
  have z7 : (("\n30\n0.0\n").data).count ('W') = 0 := by decide
  have z8 : (("0\nENDSEC\n").data).count ('W') = 0 := by decide
  have z9 : (("0\nSECTION\n2\nTABLES\n").data).count ('W') = 0 := by decide
  have z10 : (("0\nTABLE\n2\nLTYPE\n70\n1\n").data).count ('W') = 0 := by decide
  have z11 : (("0\nLTYPE\n2\nCONTINUOUS\n70\n0\n3\nSolid line\n72\n65\n73\n0\n40\n0.0\n").data).count ('W') = 0 := by
    decide
  have z12 : (("0\nENDTAB\n").data).count ('W') = 0 := by decide
  have z13 : (("0\nTABLE\n2\nLAYER\n70\n2\n").data).count ('W') = 0 := by decide
  have z14 : (("0\nLAYER\n2\nCUT\n70\n0\n62\n1\n6\nCONTINUOUS\n").data).count ('W') = 0 := by
    decide
  have z15 : (("0\nLAYER\n2\nBORDER\n70\n0\n62\n5\n6\nCONTINUOUS\n").data).count ('W') = 0 := by
    decide
  have z16 : (("0\nSECTION\n2\nENTITIES\n").data).count ('W') = 0 := by decide
  have z17 : (("0\nEOF\n").data).count ('W') = 0 := by decide
  have hpieces : (p.pieces.map fun path =>
      ExportUtils.pathToPolyline K path ("CUT")
        (p.height / ExportUtils.MM_TO_PIXELS)).flatten.count ('W') =
      p.pieces.length := by
    rw [count_flatten, List.map_map]
    refine Eq.trans (congrArg List.sum (List.map_congr_left ?_))
      (sum_map_one p.pieces)
    intro path hpath
    exact count_W_pathToPolyline K path _ _ (hp path hpath) (by decide)
  refine ⟨?_, ?_, ?_, ?_, ?_, ?_, ?_⟩
  · simp only [ExportUtils.exportDXF]
    iterate 21 apply infix_extend_right
    exact infix_of_tail
  · simp only [ExportUtils.exportDXF]
    iterate 8 apply infix_extend_right
    exact infix_of_tail
  · simp only [ExportUtils.exportDXF]
    iterate 7 apply infix_extend_right
    exact infix_of_tail
  · rcases hbc : p.borderPath with _ | b
    · simp only [ExportUtils.exportDXF, hbc, List.count_append]
      rw [count_W_toFixed4, count_W_toFixed4, hpieces]
      simp only [z1, z2, z3, z4, z5, z6, z7, z8, z9, z10, z11, z12, z13, z14,
        z15, z16, z17, List.count_nil]
      omega
    · simp only [ExportUtils.exportDXF, hbc, List.count_append]
      rw [count_W_toFixed4, count_W_toFixed4, hpieces,
        count_W_pathToPolyline K b _ _ (hb b hbc) (by decide)]
      simp only [z1, z2, z3, z4, z5, z6, z7, z8, z9, z10, z11, z12, z13, z14,
        z15, z16, z17]
      omega
  · intro path layer hMM h
    rw [ExportUtils.pathToPolyline, if_neg (by omega)]
    have hvc : ExportUtils.vertexChars hMM = specVertexChars hMM := by
      funext pt
      rfl
    rw [hvc]
  · simp only [ExportUtils.exportDXF]
    iterate 3 apply infix_extend_right
    exact infix_of_tail
  · intro b hbc
    simp only [ExportUtils.exportDXF, hbc]
    iterate 2 apply infix_extend_right
    exact infix_of_tail

/-- Closed instance of C7: a one-piece puzzle with a rectangular border
produces exactly two `LWPOLYLINE` entities. -/
theorem c7_dxf_exporter_witness :
    (∀ path ∈ ([[PathCmd.moveTo (0 : ℚ) 0, PathCmd.lineTo 2 0,
        PathCmd.lineTo 2 2, PathCmd.lineTo 0 2, PathCmd.closePath]] :
        List (List (PathCmd ℚ))),
      2 ≤ (ExportUtils.getPathPoints zeroKernel path 16).length) ∧
    (∀ b, (some [PathCmd.moveTo (0 : ℚ) 0, PathCmd.lineTo 100 0,
        PathCmd.lineTo 100 100, PathCmd.lineTo 0 100, PathCmd.closePath] =
          some b) →
      2 ≤ (ExportUtils.getPathPoints zeroKernel b 16).length) ∧
    (ExportUtils.exportDXF zeroKernel
        ⟨100, 100,
         [[PathCmd.moveTo (0 : ℚ) 0, PathCmd.lineTo 2 0, PathCmd.lineTo 2 2,
           PathCmd.lineTo 0 2, PathCmd.closePath]],
         some [PathCmd.moveTo (0 : ℚ) 0, PathCmd.lineTo 100 0,
           PathCmd.lineTo 100 100, PathCmd.lineTo 0 100,
           PathCmd.closePath]⟩).count ('W') = 2 := by
  have hp : ∀ path ∈ ([[PathCmd.moveTo (0 : ℚ) 0, PathCmd.lineTo 2 0,
      PathCmd.lineTo 2 2, PathCmd.lineTo 0 2, PathCmd.closePath]] :
      List (List (PathCmd ℚ))),
      2 ≤ (ExportUtils.getPathPoints zeroKernel path 16).length := by
    intro path hpath
    simp only [List.mem_singleton] at hpath
    subst hpath
    norm_num [ExportUtils.getPathPoints, ExportUtils.flattenAux,
      ExportUtils.cmdPoints]
  have hb : ∀ b, (some [PathCmd.moveTo (0 : ℚ) 0, PathCmd.lineTo 100 0,
      PathCmd.lineTo 100 100, PathCmd.lineTo 0 100, PathCmd.closePath] =
        some b) →
      2 ≤ (ExportUtils.getPathPoints zeroKernel b 16).length := by
    intro b hbeq
    obtain rfl : _ = b := Option.some.inj hbeq
    norm_num [ExportUtils.getPathPoints, ExportUtils.flattenAux,
      ExportUtils.cmdPoints]
  refine ⟨hp, hb, ?_⟩
  simpa using (c7_dxf_exporter zeroKernel
    ⟨100, 100,
     [[PathCmd.moveTo (0 : ℚ) 0, PathCmd.lineTo 2 0, PathCmd.lineTo 2 2,
       PathCmd.lineTo 0 2, PathCmd.closePath]],
     some [PathCmd.moveTo (0 : ℚ) 0, PathCmd.lineTo 100 0,
       PathCmd.lineTo 100 100, PathCmd.lineTo 0 100,
       PathCmd.closePath]⟩ hp hb).2.2.2.1

/-- The last element of a mapped range. -/
theorem map_range_getLast {β : Type} (g : Nat → β) (n : Nat) (hn : 1 ≤ n) :
    ((List.range n).map g).getLast? = some (g (n - 1)) := by
  obtain ⟨m, rfl⟩ : ∃ m, n = m + 1 := ⟨n - 1, by omega⟩
  rw [List.range_succ, List.map_append, List.map_singleton, List.getLast?_concat]
  simp

/-- The final Bernstein parameter `res/res` is `1`. -/
theorem cast_pred_succ_div_self {α : Type} [LinearOrderedField α] (n : Nat)
    (hn : 1 ≤ n) : (((n - 1 + 1 : Nat) : α)) / ((n : α)) = 1 := by
  rw [show n - 1 + 1 = n from by omega]
  exact div_self (Nat.cast_ne_zero.mpr (by omega))

/-- The cubic flattener emits its endpoint last. -/
theorem cubic_last {α : Type} [LinearOrderedField α] (K : ArcKernel α)
    (res : Nat) (hres : 1 ≤ res) (curX curY sX sY c1x c1y c2x c2y ex ey : α) :
    (ExportUtils.cmdPoints K res curX curY sX sY
        (PathCmd.cubicTo c1x c1y c2x c2y ex ey)).getLast? = some ⟨ex, ey⟩ := by
  simp only [ExportUtils.cmdPoints]
  rw [map_range_getLast _ res hres]
  rw [cast_pred_succ_div_self res hres]
  norm_num

/-- The quadratic flattener emits its endpoint last. -/
theorem quad_last {α : Type} [LinearOrderedField α] (K : ArcKernel α)
    (res : Nat) (hres : 1 ≤ res) (curX curY sX sY cx cy ex ey : α) :
    (ExportUtils.cmdPoints K res curX curY sX sY
        (PathCmd.quadTo cx cy ex ey)).getLast? = some ⟨ex, ey⟩ := by
  simp only [ExportUtils.cmdPoints]
  rw [map_range_getLast _ res hres]
  rw [cast_pred_succ_div_self res hres]
  norm_num

/-- A nondegenerate arc is sampled at exactly `segments` points. -/
theorem arc_length {α : Type} [LinearOrderedField α] (K : ArcKernel α)
    (x1 y1 rx ry phi : α) (fA fS : Bool) (x2 y2 : α) (N : Nat)
    (hrx : rx ≠ 0) (hry : ry ≠ 0) :
    (ExportUtils.approximateArc K x1 y1 rx ry phi fA fS x2 y2 N).length = N := by
  rw [ExportUtils.approximateArc, if_neg (not_or.mpr ⟨hrx, hry⟩)]
  simp

set_option maxHeartbeats 1600000 in
set_option maxRecDepth 8000 in
theorem arc_last_point (x1 y1 rx ry phi : ℝ) (fA fS : Bool) (x2 y2 : ℝ) (N : Nat)
    (hrx : rx ≠ 0) (hry : ry ≠ 0) (hne : (x1, y1) ≠ (x2, y2)) (hN : 1 ≤ N) :
    (ExportUtils.approximateArc realKernel x1 y1 rx ry phi fA fS x2 y2 N).getLast?
      = some ⟨x2, y2⟩ := by
  rw [ExportUtils.approximateArc, if_neg (not_or.mpr ⟨hrx, hry⟩)]
  lift_lets
  extract_lets phiRad cosPhi sinPhi dx dy x1p y1p x1pSq y1pSq lam rx1 ry1 rxSq rySq sq0 sq coef cxp cyp cx cy ux uy vx vy n theta1 nn dT0 dTheta
  rw [map_range_getLast _ N hN]
  rw [cast_pred_succ_div_self N hN]
  simp only [mul_one]
  have hcosPhiR : cosPhi = Real.cos phiRad := rfl
  have hsinPhiR : sinPhi = Real.sin phiRad := rfl
  have hcs : cosPhi ^ 2 + sinPhi ^ 2 = 1 := by
    rw [hcosPhiR, hsinPhiR]; exact Real.cos_sq_add_sin_sq phiRad
  have hdx : dx = (x1 - x2) / 2 := rfl
  have hdy : dy = (y1 - y2) / 2 := rfl
  have hx1pd : x1p = cosPhi * dx + sinPhi * dy := rfl
  have hy1pd : y1p = -sinPhi * dx + cosPhi * dy := rfl
  have hsum : x1p ^ 2 + y1p ^ 2 = dx ^ 2 + dy ^ 2 := by
    rw [hx1pd, hy1pd]; linear_combination (dx ^ 2 + dy ^ 2) * hcs
  have hdne : ¬ (dx = 0 ∧ dy = 0) := by
    rintro ⟨h1, h2⟩
    rw [hdx] at h1; rw [hdy] at h2
    have hpq : (x1, y1) = (x2, y2) := by
      rw [Prod.mk.injEq]
      exact ⟨by linarith only [h1], by linarith only [h2]⟩
    exact hne hpq
  have hpsum_pos : 0 < x1p ^ 2 + y1p ^ 2 := by
    rw [hsum]
    rcases not_and_or.mp hdne with h | h
    · have h2 : 0 < dx ^ 2 := by rw [pow_two]; exact mul_self_pos.mpr h
      linarith only [h2, sq_nonneg dy]
    · have h2 : 0 < dy ^ 2 := by rw [pow_two]; exact mul_self_pos.mpr h
      linarith only [h2, sq_nonneg dx]
  have hx1pne : ¬ (x1p = 0 ∧ y1p = 0) := by
    rintro ⟨h1, h2⟩; rw [h1, h2] at hpsum_pos; norm_num at hpsum_pos
  have hlam1 : lam = x1p ^ 2 / rx ^ 2 + y1p ^ 2 / ry ^ 2 := by
    have h0 : lam = x1p * x1p / (rx * rx) + y1p * y1p / (ry * ry) := rfl
    rw [h0]; ring
  have hsl : lam > 1 → realKernel.sqrt lam ≠ 0 := fun h =>
    ne_of_gt (Real.sqrt_pos.mpr (by linarith only [h]))
  have hrx1_ne : rx1 ≠ 0 := by
    have h0 : rx1 = if lam > 1 then rx * realKernel.sqrt lam else rx := rfl
    rw [h0]; split_ifs with hl
    · exact mul_ne_zero hrx (hsl hl)
    · exact hrx
  have hry1_ne : ry1 ≠ 0 := by
    have h0 : ry1 = if lam > 1 then ry * realKernel.sqrt lam else ry := rfl
    rw [h0]; split_ifs with hl
    · exact mul_ne_zero hry (hsl hl)
    · exact hry
  have hLam : x1p ^ 2 / rx1 ^ 2 + y1p ^ 2 / ry1 ^ 2 ≤ 1 := by
    have h1 : rx1 = if lam > 1 then rx * realKernel.sqrt lam else rx := rfl
    have h2 : ry1 = if lam > 1 then ry * realKernel.sqrt lam else ry := rfl
    rw [h1, h2]; split_ifs with hl
    · have hs : Real.sqrt lam ^ 2 = lam := Real.sq_sqrt (by linarith only [hl])
      have hlne : lam ≠ 0 := by
        have : (0 : ℝ) < lam := by linarith only [hl]
        exact ne_of_gt this
      have e1 : (rx * realKernel.sqrt lam) ^ 2 = rx ^ 2 * lam := by
        show (rx * Real.sqrt lam) ^ 2 = rx ^ 2 * lam
        rw [mul_pow, hs]
      have e2 : (ry * realKernel.sqrt lam) ^ 2 = ry ^ 2 * lam := by
        show (ry * Real.sqrt lam) ^ 2 = ry ^ 2 * lam
        rw [mul_pow, hs]
      rw [e1, e2]
      have hlm : lam * (rx ^ 2 * ry ^ 2) = x1p ^ 2 * ry ^ 2 + y1p ^ 2 * rx ^ 2 := by
        rw [hlam1]; field_simp
      have hrx2l : rx ^ 2 * lam ≠ 0 := mul_ne_zero (pow_ne_zero 2 hrx) hlne
      have hry2l : ry ^ 2 * lam ≠ 0 := mul_ne_zero (pow_ne_zero 2 hry) hlne
      have key : x1p ^ 2 / (rx ^ 2 * lam) + y1p ^ 2 / (ry ^ 2 * lam) = 1 := by
        rw [div_add_div _ _ hrx2l hry2l, div_eq_one_iff_eq (mul_ne_zero hrx2l hry2l)]
        linear_combination (-lam) * hlm
      exact le_of_eq key
    · rw [← hlam1]; exact not_lt.mp hl
  have hDpos : 0 < rx1 ^ 2 * y1p ^ 2 + ry1 ^ 2 * x1p ^ 2 := by
    rcases not_and_or.mp hx1pne with h | h
    · have h1 : 0 < x1p ^ 2 := by rw [pow_two]; exact mul_self_pos.mpr h
      have h2 : 0 < ry1 ^ 2 := by rw [pow_two]; exact mul_self_pos.mpr hry1_ne
      have h3 := mul_pos h2 h1
      have h4 : 0 ≤ rx1 ^ 2 * y1p ^ 2 := mul_nonneg (sq_nonneg _) (sq_nonneg _)
      linarith only [h3, h4]
    · have h1 : 0 < y1p ^ 2 := by rw [pow_two]; exact mul_self_pos.mpr h
      have h2 : 0 < rx1 ^ 2 := by rw [pow_two]; exact mul_self_pos.mpr hrx1_ne
      have h3 := mul_pos h2 h1
      have h4 : 0 ≤ ry1 ^ 2 * x1p ^ 2 := mul_nonneg (sq_nonneg _) (sq_nonneg _)
      linarith only [h3, h4]
  have hsq0d : sq0 = (rx1 ^ 2 * ry1 ^ 2 - rx1 ^ 2 * y1p ^ 2 - ry1 ^ 2 * x1p ^ 2) /
      (rx1 ^ 2 * y1p ^ 2 + ry1 ^ 2 * x1p ^ 2) := by
    have h0 : sq0 = (rx1 * rx1 * (ry1 * ry1) - rx1 * rx1 * (y1p * y1p) -
        ry1 * ry1 * (x1p * x1p)) /
        (rx1 * rx1 * (y1p * y1p) + ry1 * ry1 * (x1p * x1p)) := rfl
    rw [h0]; ring_nf
  have hnum_le : rx1 ^ 2 * y1p ^ 2 + ry1 ^ 2 * x1p ^ 2 ≤ rx1 ^ 2 * ry1 ^ 2 := by
    have h1 : 0 < rx1 ^ 2 := by rw [pow_two]; exact mul_self_pos.mpr hrx1_ne
    have h2 : 0 < ry1 ^ 2 := by rw [pow_two]; exact mul_self_pos.mpr hry1_ne
    have h3 := mul_le_mul_of_nonneg_left hLam (le_of_lt (mul_pos h1 h2))
    have h4 : rx1 ^ 2 * ry1 ^ 2 * (x1p ^ 2 / rx1 ^ 2 + y1p ^ 2 / ry1 ^ 2) =
        ry1 ^ 2 * x1p ^ 2 + rx1 ^ 2 * y1p ^ 2 := by
      field_simp; ring
    rw [h4, mul_one] at h3; linarith only [h3]
  have hsq0_nonneg : 0 ≤ sq0 := by
    rw [hsq0d]; exact div_nonneg (by linarith only [hnum_le]) (le_of_lt hDpos)
  have hsqd : sq = sq0 := by
    have h0 : sq = max 0 sq0 := rfl
    rw [h0]; exact max_eq_right hsq0_nonneg
  have hsq_nonneg : 0 ≤ sq := by rw [hsqd]; exact hsq0_nonneg
  have hcoef2 : coef ^ 2 = sq0 := by
    have h0 : coef = (if fA ≠ fS then (1 : ℝ) else -1) * realKernel.sqrt sq := rfl
    have h1 : Real.sqrt sq ^ 2 = sq := Real.sq_sqrt hsq_nonneg
    rw [h0, mul_pow, show (realKernel.sqrt sq : ℝ) = Real.sqrt sq from rfl, h1, hsqd]
    split_ifs <;> norm_num
  have hcoef2D : coef ^ 2 * (rx1 ^ 2 * y1p ^ 2 + ry1 ^ 2 * x1p ^ 2) =
      rx1 ^ 2 * ry1 ^ 2 - rx1 ^ 2 * y1p ^ 2 - ry1 ^ 2 * x1p ^ 2 := by
    rw [hcoef2, hsq0d, div_mul_cancel₀]
    exact ne_of_gt hDpos
  have hcxp : cxp = coef * (rx1 * y1p / ry1) := rfl
  have hcyp : cyp = coef * (-(ry1 * x1p) / rx1) := rfl
  have hvxd : vx = (-x1p - cxp) / rx1 := rfl
  have hvyd : vy = (-y1p - cyp) / ry1 := rfl
  have e1 : ux = (ry1 * x1p - coef * (rx1 * y1p)) / (rx1 * ry1) := by
    have h0 : ux = (x1p - cxp) / rx1 := rfl
    rw [h0, hcxp]; field_simp; ring
  have e2 : uy = (rx1 * y1p + coef * (ry1 * x1p)) / (rx1 * ry1) := by
    have h0 : uy = (y1p - cyp) / ry1 := rfl
    rw [h0, hcyp]; field_simp; ring
  have e3 : vx = (-(ry1 * x1p) - coef * (rx1 * y1p)) / (rx1 * ry1) := by
    rw [hvxd, hcxp]; field_simp; ring
  have e4 : vy = (-(rx1 * y1p) + coef * (ry1 * x1p)) / (rx1 * ry1) := by
    rw [hvyd, hcyp]; field_simp; ring
  have hden_ne : (rx1 * ry1) ^ 2 ≠ 0 := pow_ne_zero 2 (mul_ne_zero hrx1_ne hry1_ne)
  have hu : ux ^ 2 + uy ^ 2 = 1 := by
    have hu0 : (ry1 * x1p - coef * (rx1 * y1p)) ^ 2 +
        (rx1 * y1p + coef * (ry1 * x1p)) ^ 2 = (rx1 * ry1) ^ 2 := by
      linear_combination hcoef2D
    rw [e1, e2, div_pow, div_pow, div_add_div_same, hu0]
    exact div_self hden_ne
  have hv : vx ^ 2 + vy ^ 2 = 1 := by
    have hv0 : (-(ry1 * x1p) - coef * (rx1 * y1p)) ^ 2 +
        (-(rx1 * y1p) + coef * (ry1 * x1p)) ^ 2 = (rx1 * ry1) ^ 2 := by
      linear_combination hcoef2D
    rw [e3, e4, div_pow, div_pow, div_add_div_same, hv0]
    exact div_self hden_ne
  have hn1 : n = 1 := by
    have h0 : n = realKernel.sqrt (ux * ux + uy * uy) := rfl
    have h1 : ux * ux + uy * uy = 1 := by linear_combination hu
    rw [h0, h1]; exact Real.sqrt_one
  have hnn1 : nn = 1 := by
    have h0 : nn = realKernel.sqrt (vx * vx + vy * vy) := rfl
    have h1 : vx * vx + vy * vy = 1 := by linear_combination hv
    rw [h0, h1]; exact Real.sqrt_one
  have hux2 : ux ^ 2 ≤ 1 := by linarith only [hu, sq_nonneg uy]
  have huxa := abs_le.mp ((sq_le_one_iff_abs_le_one ux).mp hux2)
  have hux_le : ux ≤ 1 := huxa.2
  have hux_ge : -1 ≤ ux := huxa.1
  have hth : theta1 = (if uy < 0 then (-1 : ℝ) else 1) * Real.arccos ux := by
    have h0 : theta1 = (if uy < 0 then (-1 : ℝ) else 1) * realKernel.acos (ux / n) := rfl
    rw [h0, hn1, div_one]; rfl
  have hcos1 : Real.cos theta1 = ux := by
    rw [hth]; split_ifs with h
    · rw [neg_one_mul, Real.cos_neg]; exact Real.cos_arccos hux_ge hux_le
    · rw [one_mul]; exact Real.cos_arccos hux_ge hux_le
  have h1mu : Real.sqrt (1 - ux ^ 2) = |uy| := by
    rw [show (1 : ℝ) - ux ^ 2 = uy ^ 2 by linarith only [hu]]
    exact Real.sqrt_sq_eq_abs uy
  have hsin1 : Real.sin theta1 = uy := by
    rw [hth]; split_ifs with h
    · rw [neg_one_mul, Real.sin_neg, Real.sin_arccos, h1mu, abs_of_neg h]; ring
    · rw [one_mul, Real.sin_arccos, h1mu, abs_of_nonneg (not_lt.mp h)]
  have hlag : (ux * vx + uy * vy) ^ 2 + (ux * vy - uy * vx) ^ 2 = 1 := by
    linear_combination (vx ^ 2 + vy ^ 2) * hu + hv
  have hdot2 : (ux * vx + uy * vy) ^ 2 ≤ 1 := by
    linarith only [hlag, sq_nonneg (ux * vy - uy * vx)]
  have hdota := abs_le.mp ((sq_le_one_iff_abs_le_one (ux * vx + uy * vy)).mp hdot2)
  have hdot_le : ux * vx + uy * vy ≤ 1 := hdota.2
  have hdot_ge : -1 ≤ ux * vx + uy * vy := hdota.1
  have hdT0d : dT0 = (if ux * vy - uy * vx < 0 then (-1 : ℝ) else 1) *
      Real.arccos (ux * vx + uy * vy) := by
    have h0 : dT0 = (if ux * vy - uy * vx < 0 then (-1 : ℝ) else 1) *
        realKernel.acos ((ux * vx + uy * vy) / (n * nn)) := rfl
    rw [h0, hn1, hnn1, mul_one, div_one]; rfl
  have hcosd : Real.cos dT0 = ux * vx + uy * vy := by
    rw [hdT0d]; split_ifs with h
    · rw [neg_one_mul, Real.cos_neg]; exact Real.cos_arccos hdot_ge hdot_le
    · rw [one_mul]; exact Real.cos_arccos hdot_ge hdot_le
  have h1md : Real.sqrt (1 - (ux * vx + uy * vy) ^ 2) = |ux * vy - uy * vx| := by
    rw [show (1 : ℝ) - (ux * vx + uy * vy) ^ 2 = (ux * vy - uy * vx) ^ 2 by
      linarith only [hlag]]
    exact Real.sqrt_sq_eq_abs _
  have hsind : Real.sin dT0 = ux * vy - uy * vx := by
    rw [hdT0d]; split_ifs with h
    · rw [neg_one_mul, Real.sin_neg, Real.sin_arccos, h1md, abs_of_neg h]; ring
    · rw [one_mul, Real.sin_arccos, h1md, abs_of_nonneg (not_lt.mp h)]
  have hdThd : dTheta = if fS = false ∧ dT0 > 0 then dT0 - 2 * Real.pi
      else if fS = true ∧ dT0 < 0 then dT0 + 2 * Real.pi else dT0 := rfl
  have hcosD : Real.cos dTheta = ux * vx + uy * vy := by
    rw [hdThd]; split_ifs with h1 h2
    · rw [Real.cos_sub_two_pi]; exact hcosd
    · rw [Real.cos_add_two_pi]; exact hcosd
    · exact hcosd
  have hsinD : Real.sin dTheta = ux * vy - uy * vx := by
    rw [hdThd]; split_ifs with h1 h2
    · rw [Real.sin_sub_two_pi]; exact hsind
    · rw [Real.sin_add_two_pi]; exact hsind
    · exact hsind
  have hcosA : Real.cos (theta1 + dTheta) = vx := by
    rw [Real.cos_add, hcos1, hsin1, hcosD, hsinD]
    linear_combination vx * hu
  have hsinA : Real.sin (theta1 + dTheta) = vy := by
    rw [Real.sin_add, hsin1, hcos1, hcosD, hsinD]
    linear_combination vy * hu
  have hKc : realKernel.cos (theta1 + dTheta) = vx := hcosA
  have hKs : realKernel.sin (theta1 + dTheta) = vy := hsinA
  rw [hKc, hKs]
  have hrxvx : rx1 * vx = -x1p - cxp := by
    rw [hvxd]; field_simp
  have hryvy : ry1 * vy = -y1p - cyp := by
    rw [hvyd]; field_simp
  have hcxd : cx = cosPhi * cxp - sinPhi * cyp + (x1 + x2) / 2 := rfl
  have hcyd : cy = sinPhi * cxp + cosPhi * cyp + (y1 + y2) / 2 := rfl
  have hX : cosPhi * (rx1 * vx) - sinPhi * (ry1 * vy) + cx = x2 := by
    rw [hrxvx, hryvy, hcxd, hx1pd, hy1pd, hdx, hdy]
    linear_combination ((x2 - x1) / 2) * hcs
  have hY : sinPhi * (rx1 * vx) + cosPhi * (ry1 * vy) + cy = y2 := by
    rw [hrxvx, hryvy, hcyd, hx1pd, hy1pd, hdx, hdy]
    linear_combination ((y2 - y1) / 2) * hcs
  rw [hX, hY]

/-- C6, counterexample.  The claim says an `ArcTo` at resolution 16 emits
exactly 16 points, but the degenerate-radius short-circuit of
`approximateArc` (`rx === 0 || ry === 0`) emits the single endpoint. -/
theorem c6_counterexample :
    (ExportUtils.cmdPoints zeroKernel 16 (0 : ℚ) 0 0 0
        (PathCmd.arcTo 0 1 0 false false 5 5)).length = 1 ∧ (1 : Nat) ≠ 16 := by
  constructor
  · simp [ExportUtils.cmdPoints, ExportUtils.approximateArc]
  · decide

/-- C6, amended.  `LineTo` emits exactly its endpoint.  `CubicTo` and
`QuadTo` at resolution `res` emit exactly `res` Bernstein samples whose last
(at `t = res/res = 1`) is exactly the endpoint.  `ArcTo` with nonzero radii
emits exactly `res` samples, and over `ℝ` with the mathematical kernel the
last sample is exactly the endpoint (hence within `1e-6`) whenever the radii
are nonzero and the arc's endpoints differ; with a zero radius it
short-circuits to the single endpoint instead of `res` points. -/
theorem c6_amended_flattener :
    (∀ {α : Type} [inst : LinearOrderedField α] (K : ArcKernel α) (res : Nat)
        (curX curY sX sY x y : α),
      ExportUtils.cmdPoints K res curX curY sX sY (PathCmd.lineTo x y) = [⟨x, y⟩]) ∧
    (∀ {α : Type} [inst : LinearOrderedField α] (K : ArcKernel α) (res : Nat)
        (curX curY sX sY c1x c1y c2x c2y ex ey : α),
      (ExportUtils.cmdPoints K res curX curY sX sY
          (PathCmd.cubicTo c1x c1y c2x c2y ex ey)).length = res ∧
        (1 ≤ res → (ExportUtils.cmdPoints K res curX curY sX sY
            (PathCmd.cubicTo c1x c1y c2x c2y ex ey)).getLast? = some ⟨ex, ey⟩)) ∧
    (∀ {α : Type} [inst : LinearOrderedField α] (K : ArcKernel α) (res : Nat)
        (curX curY sX sY qx qy ex ey : α),
      (ExportUtils.cmdPoints K res curX curY sX sY
          (PathCmd.quadTo qx qy ex ey)).length = res ∧
        (1 ≤ res → (ExportUtils.cmdPoints K res curX curY sX sY
            (PathCmd.quadTo qx qy ex ey)).getLast? = some ⟨ex, ey⟩)) ∧
    (∀ {α : Type} [inst : LinearOrderedField α] (K : ArcKernel α) (res : Nat)
        (curX curY sX sY rx ry rot : α) (la sw : Bool) (ex ey : α),
      rx ≠ 0 → ry ≠ 0 →
      (ExportUtils.cmdPoints K res curX curY sX sY
          (PathCmd.arcTo rx ry rot la sw ex ey)).length = res) ∧
    (∀ (res : Nat) (curX curY sX sY rx ry rot : ℝ) (la sw : Bool) (ex ey : ℝ),
      rx ≠ 0 → ry ≠ 0 → (curX, curY) ≠ (ex, ey) → 1 ≤ res →
      (ExportUtils.cmdPoints realKernel res curX curY sX sY
          (PathCmd.arcTo rx ry rot la sw ex ey)).getLast? = some ⟨ex, ey⟩) := by
  refine ⟨?_, ?_, ?_, ?_, ?_⟩
  · intro α inst K res curX curY sX sY x y
    rfl
  · intro α inst K res curX curY sX sY c1x c1y c2x c2y ex ey
    exact ⟨by simp [ExportUtils.cmdPoints],
      fun h => cubic_last K res h curX curY sX sY c1x c1y c2x c2y ex ey⟩
  · intro α inst K res curX curY sX sY qx qy ex ey
    exact ⟨by simp [ExportUtils.cmdPoints],
      fun h => quad_last K res h curX curY sX sY qx qy ex ey⟩
  · intro α inst K res curX curY sX sY rx ry rot la sw ex ey hrx hry
    simp only [ExportUtils.cmdPoints]
    exact arc_length K curX curY rx ry rot la sw ex ey res hrx hry
  · intro res curX curY sX sY rx ry rot la sw ex ey hrx hry hne hres
    simp only [ExportUtils.cmdPoints]
    exact arc_last_point curX curY rx ry rot la sw ex ey res hrx hry hne hres

/-- Closed instance of the amended C6: a concrete cubic at resolution 16
ends exactly at its endpoint, and a concrete nondegenerate real arc from
`(0, 0)` to `(5, 3)` ends exactly at `(5, 3)`. -/
theorem c6_amended_witness :
    (1 ≤ 16 ∧
      (ExportUtils.cmdPoints zeroKernel 16 (0 : ℚ) 0 0 0
          (PathCmd.cubicTo 1 2 3 4 5 6)).getLast? = some ⟨5, 6⟩) ∧
    ((1 : ℝ) ≠ 0 ∧ ((0 : ℝ), (0 : ℝ)) ≠ ((5 : ℝ), (3 : ℝ)) ∧
      (ExportUtils.cmdPoints realKernel 16 (0 : ℝ) 0 0 0
          (PathCmd.arcTo 1 1 0 false false 5 3)).getLast? = some ⟨5, 3⟩) := by
  refine ⟨⟨by norm_num, ?_⟩, by norm_num, by norm_num [Prod.ext_iff], ?_⟩
  · exact (c6_amended_flattener.2.1 zeroKernel 16 0 0 0 0 1 2 3 4 5 6).2 (by norm_num)
  · exact c6_amended_flattener.2.2.2.2 16 0 0 0 0 1 1 0 false false 5 3
      (by norm_num) (by norm_num) (by norm_num [Prod.ext_iff]) (by norm_num)
